import Mathlib

/-!
ROCKET (GPSTk derivative): outlier filter, ambiguity-datum configuration and
fixing statistics, table of linear combinations.

A shallow embedding of

* `src/lib/Procframe/SimpleFilter.hpp` : class `SimpleFilter`,
* `src/lib/deprecate/SolverUpdNL.hpp`  : class `SolverUpdNL`,
* `src/lib/dev/LinearCombinationsMGEX.cpp` : class `LinearCombinationsMGEX`,

followed by the theorems about them.

Conventions of the embedding.

* `SimpleFilter` and `SolverUpdNL` use a C++ `double` only through stores, loads
  and comparisons.  Comparison of doubles is exact, so there a double is
  modelled by its value, the type `Double`: a NaN, the two infinities, or a
  finite value given as a rational number.
* `LinearCombinationsMGEX` computes with doubles.  Its definitions are written
  for any number type with the operations used, and are read in two ways: in
  binary64 arithmetic, the type `IEEEDouble` (every operation rounded once, to
  nearest, ties to even), and in exact arithmetic (a field such as `ℚ`).
* `std::set<TypeID>` is a `Finset TypeID`; `std::map<K, V>` is the list of its
  `(key, value)` entries.
* A member function that mutates `*this` and returns `*this` is a function from
  the old object state to the new one.
* A function that mutates its reference argument and may throw returns the
  state of the argument when control leaves the function, and the exception
  that left it, if any.
* Where a function body is not among the sources, the definition follows the
  spec and says so.
-/

namespace gpstk

/-! ## Data model -/

/-- Observable and parameter kinds: the `TypeID` values named in the sources. -/
inductive TypeID where
  | C1 | C2 | C5 | C6 | C7 | C8
  | P1 | P2
  | L1 | L2 | L5 | L6 | L7 | L8
  | Q1 | Q2 | Q5
  | PC | LC | PI | LI | Pdelta | Ldelta | MWubbena
  | GRAPHIC1 | GRAPHIC2 | GRAPHIC5 | GRAPHIC6 | GRAPHIC7 | GRAPHIC8
  | WL | WL2 | WL4
  | rho | dtSat | rel | gravDelay | satPCenter | tropoSlant | windUp | ionoL1
  | instC1 | instP1 | instP2 | instPdelta | instMWubbena
  | corrC1 | corrP1 | corrP2 | corrL1 | corrL2 | corrPC | corrLC
  | corrPdelta | corrLdelta
  | updSatL1 | updSatL2 | updSatLC | updSatWL | updSatMW
  | prefitC | prefitL | prefitC1 | prefitP1 | prefitP2 | prefitL1 | prefitL2
  | prefitPdelta | prefitLdelta | prefitMWubbena
  | prefitWL | prefitWL2 | prefitWL4
  deriving DecidableEq, Repr

/-- The type `std::set<TypeID>`. -/
abbrev TypeIDSet := Finset TypeID

/-- The value of a C++ `double`, as far as comparison can tell: not-a-number,
minus infinity, a finite value, plus infinity. -/
inductive Double where
  | nan
  | negInf
  | fin (q : ℚ)
  | posInf
  deriving DecidableEq

namespace Double

/-- The C++ comparison `a <= b` on doubles: false as soon as one side is NaN. -/
def le : Double → Double → Bool
  | nan, _ => false
  | _, nan => false
  | negInf, _ => true
  | _, posInf => true
  | fin a, fin b => decide (a ≤ b)
  | fin _, negInf => false
  | posInf, fin _ => false
  | posInf, negInf => false

/-- The C++ comparison `a >= b` on doubles. -/
def ge (a b : Double) : Bool := le b a

end Double

/-- The satellite identifier `SatID`, declared outside the sources at hand: a
satellite-system tag and a PRN number. -/
structure SatID where
  system : Nat
  id : Int
  deriving DecidableEq, Repr

/-- The type `typeValueMap`, a map from `TypeID` to `double`: one satellite
record. -/
abbrev typeValueMap := List (TypeID × Double)

/-- The type `satTypeValueMap`, a map from `SatID` to `typeValueMap`: one epoch
of data. -/
abbrev satTypeValueMap := List (SatID × typeValueMap)

/-- Modelled from the spec: the lookup of an observable type in a satellite
record, a member of `typeValueMap`, which is declared outside the sources at
hand.  Spec 6: "satellite ID → {observable type → value}"; spec 4.1: a type is
"present" or "missing".  The result is the stored value, or `none` for a
missing type. -/
def typeValueMap.getValue (tvMap : typeValueMap) (type : TypeID) : Option Double :=
  (tvMap.find? (fun e => e.1 == type)).map Prod.snd

/-- Modelled from the spec: "the epoch's satellite count" (spec 4.1), a member
of `satTypeValueMap`, which is declared outside the sources at hand. -/
def satTypeValueMap.numSats (gData : satTypeValueMap) : Nat := gData.length

/-- The exceptions named in the throw specification of `SimpleFilter::Process`. -/
inductive Exception where
  | ProcessingException
  | SVNumException
  deriving DecidableEq, Repr

/-- What a mutating, possibly throwing call leaves behind: the argument as it
stands when control leaves the call, and the exception thrown, if any. -/
structure Outcome (α : Type) where
  data : α
  raised : Option Exception

/-- The structure `gnssSatTypeValue`: a header and a `satTypeValueMap` body.
Its header class is declared outside the sources at hand and stays a type
parameter. -/
structure gnssSatTypeValue (sourceEpochHeader : Type) where
  header : sourceEpochHeader
  body : satTypeValueMap

/-- The structure `gnssRinex`: a header and a `satTypeValueMap` body.  Its
header class is declared outside the sources at hand and stays a type
parameter. -/
structure gnssRinex (sourceEpochRinexHeader : Type) where
  header : sourceEpochRinexHeader
  body : satTypeValueMap

/-! ## `SimpleFilter` (SimpleFilter.hpp) -/

/-- The data members of class `SimpleFilter`. -/
structure SimpleFilter where
  filterTypeSet : TypeIDSet
  minLimit : Double
  maxLimit : Double
  deriving DecidableEq

namespace SimpleFilter

/-- The member `setFilteredType(const TypeID&)`:
`filterTypeSet.clear(); filterTypeSet.insert(type);`. -/
def setFilteredType (self : SimpleFilter) (type : TypeID) : SimpleFilter :=
  let cleared : SimpleFilter := { self with filterTypeSet := ∅ }
  { cleared with filterTypeSet := insert type cleared.filterTypeSet }

/-- The member `setFilteredType(const TypeIDSet&)`:
`filterTypeSet.clear(); filterTypeSet = typeSet;`.  The argument is a set of
its own, not the member `filterTypeSet` of the same object: the member is
protected and `getFilteredType` hands out a copy. -/
def setFilteredTypeSet (self : SimpleFilter) (typeSet : TypeIDSet) : SimpleFilter :=
  let cleared : SimpleFilter := { self with filterTypeSet := ∅ }
  { cleared with filterTypeSet := typeSet }

/-- The member `addFilteredType`: `filterTypeSet.insert(type);`. -/
def addFilteredType (self : SimpleFilter) (type : TypeID) : SimpleFilter :=
  { self with filterTypeSet := insert type self.filterTypeSet }

/-- The member `getFilteredType`. -/
def getFilteredType (self : SimpleFilter) : TypeIDSet := self.filterTypeSet

/-- The member `setMinLimit`: `minLimit = min;`. -/
def setMinLimit (self : SimpleFilter) (min : Double) : SimpleFilter :=
  { self with minLimit := min }

/-- The member `getMinLimit`. -/
def getMinLimit (self : SimpleFilter) : Double := self.minLimit

/-- The member `setMaxLimit`: `maxLimit = max;`. -/
def setMaxLimit (self : SimpleFilter) (max : Double) : SimpleFilter :=
  { self with maxLimit := max }

/-- The member `getMaxLimit`. -/
def getMaxLimit (self : SimpleFilter) : Double := self.maxLimit

/-- The members as they stand after the member initialisers of a constructor
that names only the two limits: `filterTypeSet` is default-constructed. -/
def initLimits (min max : Double) : SimpleFilter :=
  { filterTypeSet := ∅, minLimit := min, maxLimit := max }

/-- The default constructor `SimpleFilter()`. -/
def new : SimpleFilter :=
  setFilteredType (initLimits (.fin 15000000) (.fin 30000000)) TypeID.C1

/-- The constructor `SimpleFilter(type, min, max)`. -/
def ofTypeLimits (type : TypeID) (min max : Double) : SimpleFilter :=
  setFilteredType (initLimits min max) type

/-- The constructor `SimpleFilter(type)`. -/
def ofType (type : TypeID) : SimpleFilter :=
  setFilteredType (initLimits (.fin 15000000) (.fin 30000000)) type

/-- The constructor `SimpleFilter(typeSet, min, max)`. -/
def ofTypeSetLimits (typeSet : TypeIDSet) (min max : Double) : SimpleFilter :=
  { filterTypeSet := typeSet, minLimit := min, maxLimit := max }

/-- The constructor `SimpleFilter(typeSet)`. -/
def ofTypeSet (typeSet : TypeIDSet) : SimpleFilter :=
  { filterTypeSet := typeSet, minLimit := .fin 15000000, maxLimit := .fin 30000000 }

/-- The member `checkValue`:
`return ( (value>=minLimit) && (value<=maxLimit) );`. -/
def checkValue (self : SimpleFilter) (value : Double) : Bool :=
  Double.ge value self.minLimit && Double.le value self.maxLimit

/-- Modelled from the spec: the per-type test of the body of
`SimpleFilter::Process(satTypeValueMap&)`, which is defined in SimpleFilter.cpp
and is not among the sources at hand.  Spec 4.1: "check that every configured
observable type is present and within bounds".  This is the test of one
configured type on one satellite record: the type is present and its value
passes `checkValue`. -/
def typeWithinBounds (self : SimpleFilter) (tvMap : typeValueMap) (type : TypeID) : Bool :=
  match tvMap.getValue type with
  | some value => self.checkValue value
  | none => false

/-- Modelled from the spec: the per-satellite test of the body of
`SimpleFilter::Process(satTypeValueMap&)`, which is defined in SimpleFilter.cpp
and is not among the sources at hand.  Spec 4.1: "for each tracked satellite
check that every configured observable type is present and within bounds". -/
def satWithinBounds (self : SimpleFilter) (tvMap : typeValueMap) : Bool :=
  decide (∀ type ∈ self.filterTypeSet, self.typeWithinBounds tvMap type = true)

/-- Modelled from the spec: the filtering pass of the body of
`SimpleFilter::Process(satTypeValueMap&)`, which is defined in SimpleFilter.cpp
and is not among the sources at hand.  Spec 4.1: "if any required type is
missing or out of bounds, remove that satellite's entire record".  The map is
walked satellite by satellite; a record that fails the test is dropped, the
others are left as they are. -/
def removeRejected (self : SimpleFilter) : satTypeValueMap → satTypeValueMap
  | [] => []
  | (sat, tvMap) :: rest =>
    if self.satWithinBounds tvMap then (sat, tvMap) :: removeRejected self rest
    else removeRejected self rest

/-- Modelled from the spec: the minimum satellite count of
`SimpleFilter::Process(satTypeValueMap&)`, whose body is defined in
SimpleFilter.cpp and is not among the sources at hand.  Spec 4.1: "a minimum
threshold (4)"; the revision note of SimpleFilter.hpp says the same. -/
def minSatNumber : Nat := 4

/-- Modelled from the spec: the member `SimpleFilter::Process(satTypeValueMap&)`,
declared in SimpleFilter.hpp and defined in SimpleFilter.cpp, which is not among
the sources at hand.  Spec 4.1: "Before filtering, if the epoch's satellite
count is below a minimum threshold (4), fail immediately with a 'too few
satellites' condition [...] this must short-circuit without attempting partial
filtering.  Side effect: mutates the epoch data in place; returns the same
container." -/
def Process (self : SimpleFilter) (gData : satTypeValueMap) : Outcome satTypeValueMap :=
  if gData.numSats < minSatNumber then
    { data := gData, raised := some Exception.SVNumException }
  else
    { data := self.removeRejected gData, raised := none }

/-- The member `Process(gnssSatTypeValue&)`:
`{ Process(gData.body); return gData; }`.  The inner call is the virtual member
`Process(satTypeValueMap&)` of the object, the argument `mapProcess`; it works
on `gData.body` in place, and an exception it throws leaves through this
function. -/
def Process_gnssSatTypeValue {H : Type}
    (mapProcess : satTypeValueMap → Outcome satTypeValueMap) (gData : gnssSatTypeValue H) :
    Outcome (gnssSatTypeValue H) :=
  let inner := mapProcess gData.body
  { data := { gData with body := inner.data }, raised := inner.raised }

/-- The member `Process(gnssRinex&)`: `{ Process(gData.body); return gData; }`.
The inner call is the virtual member `Process(satTypeValueMap&)` of the object,
the argument `mapProcess`; it works on `gData.body` in place, and an exception
it throws leaves through this function. -/
def Process_gnssRinex {H : Type}
    (mapProcess : satTypeValueMap → Outcome satTypeValueMap) (gData : gnssRinex H) :
    Outcome (gnssRinex H) :=
  let inner := mapProcess gData.body
  { data := { gData with body := inner.data }, raised := inner.raised }

end SimpleFilter

/-- An epoch of four satellites for the default filter: `G01` and `G02` carry
`C1` on the lower and on the upper bound, `G03` carries `C1` one metre below
the lower bound, `G04` carries no `C1` at all. -/
def sampleEpoch : satTypeValueMap :=
  [ (⟨1, 1⟩, [(TypeID.C1, .fin 15000000), (TypeID.L1, .fin 0)]),
    (⟨1, 2⟩, [(TypeID.C1, .fin 30000000)]),
    (⟨1, 3⟩, [(TypeID.C1, .fin 14999999)]),
    (⟨1, 4⟩, [(TypeID.P1, .fin 20000000)]) ]

/-- An epoch of three satellites, all with `C1` within the default bounds. -/
def shortEpoch : satTypeValueMap :=
  [ (⟨1, 1⟩, [(TypeID.C1, .fin 20000000)]),
    (⟨1, 2⟩, [(TypeID.C1, .fin 21000000)]),
    (⟨1, 3⟩, [(TypeID.C1, .fin 22000000)]) ]

/-! ## `SolverUpdNL` (SolverUpdNL.hpp) -/

/-- The base-class sub-object and the data members of class `SolverUpdNL` that
hold the ambiguity-datum configuration: `isIndepAmbDatum`, `ambiguityDatum`,
`indepAmbDatum`.  The classes `SolverGeneral`, `AmbiguityDatum` and
`IndepAmbiguityDatum` are declared outside the sources at hand and stay type
parameters. -/
structure SolverUpdNL (SolverGeneral AmbiguityDatum IndepAmbiguityDatum : Type) where
  base : SolverGeneral
  isIndepAmbDatum : Bool
  ambiguityDatum : AmbiguityDatum
  indepAmbDatum : IndepAmbiguityDatum

namespace SolverUpdNL

variable {Equation EquationSystem SolverGeneral AmbiguityDatum IndepAmbiguityDatum : Type}

/-- The constructor `SolverUpdNL(const Equation&)`, with the member initialisers
`SolverGeneral(equation), isIndepAmbDatum(false)`.  `mkBase` is the base-class
constructor; the two datum members are default-constructed. -/
def ofEquation [Inhabited AmbiguityDatum] [Inhabited IndepAmbiguityDatum]
    (mkBase : Equation → SolverGeneral) (equation : Equation) :
    SolverUpdNL SolverGeneral AmbiguityDatum IndepAmbiguityDatum :=
  { base := mkBase equation, isIndepAmbDatum := false,
    ambiguityDatum := default, indepAmbDatum := default }

/-- The constructor `SolverUpdNL(const std::list<Equation>&)`, with the single
member initialiser `SolverGeneral(equationList)` and an empty body.  The member
`isIndepAmbDatum` has no initialiser: it keeps what its storage held, the
argument `indeterminate`. -/
def ofEquationList [Inhabited AmbiguityDatum] [Inhabited IndepAmbiguityDatum]
    (mkBase : List Equation → SolverGeneral) (equationList : List Equation)
    (indeterminate : Bool) :
    SolverUpdNL SolverGeneral AmbiguityDatum IndepAmbiguityDatum :=
  { base := mkBase equationList, isIndepAmbDatum := indeterminate,
    ambiguityDatum := default, indepAmbDatum := default }

/-- The constructor `SolverUpdNL(const EquationSystem&)`, with the single member
initialiser `SolverGeneral(equationSys)` and an empty body.  The member
`isIndepAmbDatum` has no initialiser: it keeps what its storage held, the
argument `indeterminate`. -/
def ofEquationSystem [Inhabited AmbiguityDatum] [Inhabited IndepAmbiguityDatum]
    (mkBase : EquationSystem → SolverGeneral) (equationSys : EquationSystem)
    (indeterminate : Bool) :
    SolverUpdNL SolverGeneral AmbiguityDatum IndepAmbiguityDatum :=
  { base := mkBase equationSys, isIndepAmbDatum := indeterminate,
    ambiguityDatum := default, indepAmbDatum := default }

/-- The member `setAmbiguityDatum`:
`isIndepAmbDatum = false; ambiguityDatum = ambDatum;`. -/
def setAmbiguityDatum (self : SolverUpdNL SolverGeneral AmbiguityDatum IndepAmbiguityDatum)
    (ambDatum : AmbiguityDatum) :
    SolverUpdNL SolverGeneral AmbiguityDatum IndepAmbiguityDatum :=
  let flagged := { self with isIndepAmbDatum := false }
  { flagged with ambiguityDatum := ambDatum }

/-- The member `setIndepAmbiguityDatum`:
`isIndepAmbDatum = true; indepAmbDatum = ambDatum;`. -/
def setIndepAmbiguityDatum (self : SolverUpdNL SolverGeneral AmbiguityDatum IndepAmbiguityDatum)
    (ambDatum : IndepAmbiguityDatum) :
    SolverUpdNL SolverGeneral AmbiguityDatum IndepAmbiguityDatum :=
  let flagged := { self with isIndepAmbDatum := true }
  { flagged with indepAmbDatum := ambDatum }

end SolverUpdNL

/-- One call of a datum setter of `SolverUpdNL`, with its argument. -/
inductive DatumCall (AmbiguityDatum IndepAmbiguityDatum : Type) where
  | setAmbiguityDatum (ambDatum : AmbiguityDatum)
  | setIndepAmbiguityDatum (ambDatum : IndepAmbiguityDatum)

namespace DatumCall

variable {SolverGeneral AmbiguityDatum IndepAmbiguityDatum : Type}

/-- The strategy a setter call selects: `true` for the independent datum. -/
def selectsIndep : DatumCall AmbiguityDatum IndepAmbiguityDatum → Bool
  | setAmbiguityDatum _ => false
  | setIndepAmbiguityDatum _ => true

/-- Performs one setter call on a solver. -/
def run (call : DatumCall AmbiguityDatum IndepAmbiguityDatum)
    (solver : SolverUpdNL SolverGeneral AmbiguityDatum IndepAmbiguityDatum) :
    SolverUpdNL SolverGeneral AmbiguityDatum IndepAmbiguityDatum :=
  match call with
  | setAmbiguityDatum ambDatum => solver.setAmbiguityDatum ambDatum
  | setIndepAmbiguityDatum ambDatum => solver.setIndepAmbiguityDatum ambDatum

/-- Performs a sequence of setter calls on a solver, first call first. -/
def runAll (calls : List (DatumCall AmbiguityDatum IndepAmbiguityDatum))
    (solver : SolverUpdNL SolverGeneral AmbiguityDatum IndepAmbiguityDatum) :
    SolverUpdNL SolverGeneral AmbiguityDatum IndepAmbiguityDatum :=
  calls.foldl (fun s call => call.run s) solver

end DatumCall

/-! ## IEEE 754 binary64 arithmetic

The arithmetic of a C++ `double` where every operation is rounded once to
binary64, round to nearest, ties to even: what a target computes that evaluates
`double` expressions in `double` and does not fuse a product into a sum.  The
exact result of an operation is a rational number; `IEEEDouble.round` brings it
back to binary64. -/

/-- The binary logarithm of a natural number, rounded down, by repeated halving;
`fuel` bounds the number of halvings. -/
def natLog2Aux : Nat → Nat → Nat
  | 0, _ => 0
  | fuel + 1, n => if n < 2 then 0 else natLog2Aux fuel (n / 2) + 1

/-- The binary logarithm of a natural number, rounded down (0 for 0). -/
def natLog2 (n : Nat) : Nat := natLog2Aux n n

/-- The integer part of the binary logarithm of a positive rational: the `e`
with `2 ^ e ≤ q < 2 ^ (e + 1)`. -/
def floorLog2 (q : ℚ) : Int :=
  let guess : Int := (natLog2 q.num.natAbs : Int) - (natLog2 q.den : Int)
  if (2 : ℚ) ^ guess ≤ q then guess else guess - 1

/-- Rounds a rational to the nearest integer, a tie going to the even one. -/
def roundHalfEven (q : ℚ) : Int :=
  let lower : Int := q.floor
  let rest : ℚ := q - lower
  if rest < 1 / 2 then lower
  else if 1 / 2 < rest then lower + 1
  else if lower % 2 = 0 then lower else lower + 1

/-- An IEEE 754 binary64 datum: a NaN, an infinity with its sign, or a finite
number given by its sign and its magnitude (so the two zeros are apart). -/
inductive IEEEDouble where
  | nan
  | inf (negative : Bool)
  | finite (negative : Bool) (magnitude : ℚ)
  deriving DecidableEq

namespace IEEEDouble

/-- Rounds a magnitude `q ≥ 0` to binary64, round to nearest, ties to even: 53
significant bits, exponent at least `-1022` (below that the spacing stays
`2 ^ (-1074)`), and overflow to infinity from `2 ^ 1024` on. -/
def round (negative : Bool) (q : ℚ) : IEEEDouble :=
  if q = 0 then finite negative 0
  else
    let exponent : Int := max (floorLog2 q) (-1022)
    let spacing : ℚ := (2 : ℚ) ^ (exponent - 52)
    let rounded : ℚ := (roundHalfEven (q / spacing) : ℚ) * spacing
    if (2 : ℚ) ^ (1024 : Int) ≤ rounded then inf negative else finite negative rounded

/-- The binary64 nearest to a rational number. -/
def ofRat (q : ℚ) : IEEEDouble := round (decide (q < 0)) |q|

/-- The conversion `double(i)` of an integer. -/
def ofInt (i : Int) : IEEEDouble := ofRat i

/-- The value of a decimal literal `mantissa * 10 ^ (∓ exponent)`. -/
def ofScientific (mantissa : Nat) (exponentSign : Bool) (decimalExponent : Nat) : IEEEDouble :=
  ofRat (Rat.ofScientific mantissa exponentSign decimalExponent)

/-- Unary minus: the sign is flipped. -/
def neg : IEEEDouble → IEEEDouble
  | nan => nan
  | inf s => inf (!s)
  | finite s a => finite (!s) a

/-- The signed value of a finite datum as a rational. -/
def signed (negative : Bool) (magnitude : ℚ) : ℚ :=
  if negative then -magnitude else magnitude

/-- Addition.  An exact zero sum is `-0` only when both terms are negative. -/
def add : IEEEDouble → IEEEDouble → IEEEDouble
  | nan, _ => nan
  | _, nan => nan
  | inf s, inf t => if s = t then inf s else nan
  | inf s, finite _ _ => inf s
  | finite _ _, inf t => inf t
  | finite s a, finite t b =>
    let sum : ℚ := signed s a + signed t b
    if sum = 0 then finite (s && t) 0 else round (decide (sum < 0)) |sum|

/-- Subtraction: `a - b` is `a + (-b)`. -/
def sub (a b : IEEEDouble) : IEEEDouble := add a (neg b)

/-- Multiplication.  The sign is the exclusive or of the signs; infinity times
zero is NaN. -/
def mul : IEEEDouble → IEEEDouble → IEEEDouble
  | nan, _ => nan
  | _, nan => nan
  | inf s, inf t => inf (xor s t)
  | inf s, finite t b => if b = 0 then nan else inf (xor s t)
  | finite s a, inf t => if a = 0 then nan else inf (xor s t)
  | finite s a, finite t b => round (xor s t) (a * b)

/-- Division.  The sign is the exclusive or of the signs; `0/0` and `∞/∞` are
NaN, a non-zero number over zero is an infinity. -/
def div : IEEEDouble → IEEEDouble → IEEEDouble
  | nan, _ => nan
  | _, nan => nan
  | inf _, inf _ => nan
  | inf s, finite t _ => inf (xor s t)
  | finite s _, inf t => finite (xor s t) 0
  | finite s a, finite t b =>
    if b = 0 then (if a = 0 then nan else inf (xor s t)) else round (xor s t) (a / b)

/-- The value of a finite datum; `none` for a NaN and for the infinities. -/
def value? : IEEEDouble → Option ℚ
  | finite s a => some (signed s a)
  | _ => none

instance : Add IEEEDouble := ⟨add⟩
instance : Sub IEEEDouble := ⟨sub⟩
instance : Mul IEEEDouble := ⟨mul⟩
instance : Div IEEEDouble := ⟨div⟩
instance : Neg IEEEDouble := ⟨neg⟩
instance : IntCast IEEEDouble := ⟨ofInt⟩
instance : OfScientific IEEEDouble := ⟨ofScientific⟩

end IEEEDouble

/-! ## `LinearCombinationsMGEX` (LinearCombinationsMGEX.cpp)

The definitions are written once for every number type `D` that has the
operations the C++ text uses on `double`: they can be read in binary64
(`IEEEDouble`) and in exact arithmetic (a field such as `ℚ`). -/

/-- What the constructor and the helpers read and the sources at hand do not
define: the constants of `GNSSconstants.hpp`, and the default values `f1Default`
and `f2Default` that the declarations in `LinearCombinationsMGEX.hpp` give to
the parameters `f1` and `f2` of `freqOfLC`, `wavelengthOfLC`, `firstFactorOfLC`
and `secondFactorOfLC`, used by the two-argument calls. -/
structure Externals (D : Type) where
  C_MPS : D
  TWO_PI : D
  L1_FREQ_GPS : D
  L2_FREQ_GPS : D
  L1_WAVELENGTH_GPS : D
  L2_WAVELENGTH_GPS : D
  GAMMA_GPS : D
  L1_FREQ_GAL : D
  L5_FREQ_GAL : D
  GAMMA_GAL_L1L5 : D
  LC_WAVELENGTH_GAL_L1L5 : D
  f1Default : D
  f2Default : D

/-- The structure `gnssLinearCombination`: the header is the `TypeID` of the
result, the body maps each input `TypeID` to its coefficient. -/
structure gnssLinearCombination (D : Type) where
  header : TypeID
  body : List (TypeID × D)

/-- The assignment `body[type] = value` on a map: the entry of `type` is
overwritten if there is one, and added otherwise. -/
def assign {D : Type} (body : List (TypeID × D)) (type : TypeID) (value : D) :
    List (TypeID × D) :=
  if body.any (fun entry => entry.1 == type) then
    body.map (fun entry => if entry.1 == type then (type, value) else entry)
  else
    body ++ [(type, value)]

/-- A run of assignments `body[type] = value` on an empty map, first one
first. -/
def assignAll {D : Type} (entries : List (TypeID × D)) : List (TypeID × D) :=
  entries.foldl (fun body entry => assign body entry.1 entry.2) []

/-- The coefficient `body[type]` of a combination, if it has one. -/
def gnssLinearCombination.coefficient {D : Type} (comb : gnssLinearCombination D)
    (type : TypeID) : Option D :=
  (comb.body.find? (fun entry => entry.1 == type)).map Prod.snd

/-- The input types of a combination: the keys of its body. -/
def gnssLinearCombination.inputs {D : Type} (comb : gnssLinearCombination D) : List TypeID :=
  comb.body.map Prod.fst

namespace LinearCombinationsMGEX

variable {D : Type} [Add D] [Sub D] [Mul D] [Div D] [Neg D] [IntCast D] [OfScientific D]

/-- The member `freqOfLC`: `return ( double(i)*f1+double(j)*f2 );`. -/
def freqOfLC (i j : Int) (f1 f2 : D) : D :=
  (i : D) * f1 + (j : D) * f2

/-- The member `wavelengthOfLC`: `return C_MPS / freqOfLC(i,j,f1,f2);`. -/
def wavelengthOfLC (C_MPS : D) (i j : Int) (f1 f2 : D) : D :=
  C_MPS / freqOfLC i j f1 f2

/-- The member `firstFactorOfLC`: `return double(i)*f1/freqOfLC(i,j,f1,f2);`. -/
def firstFactorOfLC (i j : Int) (f1 f2 : D) : D :=
  (i : D) * f1 / freqOfLC i j f1 f2

/-- The member `secondFactorOfLC`: `return double(j)*f2/freqOfLC(i,j,f1,f2);`. -/
def secondFactorOfLC (i j : Int) (f1 f2 : D) : D :=
  (j : D) * f2 / freqOfLC i j f1 f2

/-- The local variable `x` of the constructor: `double x(( GAMMA_GPS + 1.0)/( GAMMA_GPS - 1.0 ));`. -/
def x (k : Externals D) : D :=
  (k.GAMMA_GPS + (1.0 : D)) / (k.GAMMA_GPS - (1.0 : D))

/-- The local variable `y` of the constructor: `double y(( 2.0 )/( GAMMA_GPS - 1.0 ));`. -/
def y (k : Externals D) : D :=
  (2.0 : D) / (k.GAMMA_GPS - (1.0 : D))

/-- The local variable `z` of the constructor: `double z(( 2.0 * GAMMA_GPS)/( GAMMA_GPS - 1.0 ));`. -/
def z (k : Externals D) : D :=
  ((2.0 : D) * k.GAMMA_GPS) / (k.GAMMA_GPS - (1.0 : D))

/-- The local variable `x_GAL` of the constructor: `double x_GAL(( GAMMA_GAL_L1L5 + 1.0)/( GAMMA_GAL_L1L5 - 1.0 ));`. -/
def x_GAL (k : Externals D) : D :=
  (k.GAMMA_GAL_L1L5 + (1.0 : D)) / (k.GAMMA_GAL_L1L5 - (1.0 : D))

/-- The local variable `y_GAL` of the constructor: `double y_GAL(( 2.0 )/( GAMMA_GAL_L1L5 - 1.0 ));`. -/
def y_GAL (k : Externals D) : D :=
  (2.0 : D) / (k.GAMMA_GAL_L1L5 - (1.0 : D))

/-- The local variable `z_GAL` of the constructor: `double z_GAL(( 2.0 * GAMMA_GAL_L1L5)/( GAMMA_GAL_L1L5 - 1.0 ));`. -/
def z_GAL (k : Externals D) : D :=
  ((2.0 : D) * k.GAMMA_GAL_L1L5) / (k.GAMMA_GAL_L1L5 - (1.0 : D))

/-- The local variable `a` of the constructor: `double a(+GAMMA_GPS/0.646944444);`. -/
def a (k : Externals D) : D :=
  k.GAMMA_GPS / (0.646944444 : D)

/-- The local variable `b` of the constructor: `double b(1.0/0.646944444);`. -/
def b (_k : Externals D) : D :=
  (1.0 : D) / (0.646944444 : D)

/-- The local variable `a_GAL_L1L5` of the constructor: `double a_GAL_L1L5(GAMMA_GAL_L1L5/(GAMMA_GAL_L1L5 -1));`. -/
def a_GAL_L1L5 (k : Externals D) : D :=
  k.GAMMA_GAL_L1L5 / (k.GAMMA_GAL_L1L5 - ((1 : Int) : D))

/-- The local variable `b_GAL_L1L5` of the constructor: `double b_GAL_L1L5(1.0 /(GAMMA_GAL_L1L5 -1));`. -/
def b_GAL_L1L5 (k : Externals D) : D :=
  (1.0 : D) / (k.GAMMA_GAL_L1L5 - ((1 : Int) : D))

/-- The local variable `c` of the constructor: `double c(L1_FREQ_GPS/(L1_FREQ_GPS + L2_FREQ_GPS));`. -/
def c (k : Externals D) : D :=
  k.L1_FREQ_GPS / (k.L1_FREQ_GPS + k.L2_FREQ_GPS)

/-- The local variable `d` of the constructor: `double d(L2_FREQ_GPS/(L1_FREQ_GPS + L2_FREQ_GPS));`. -/
def d (k : Externals D) : D :=
  k.L2_FREQ_GPS / (k.L1_FREQ_GPS + k.L2_FREQ_GPS)

/-- The local variable `e` of the constructor: `double e(L1_FREQ_GPS/(L1_FREQ_GPS - L2_FREQ_GPS));`. -/
def e (k : Externals D) : D :=
  k.L1_FREQ_GPS / (k.L1_FREQ_GPS - k.L2_FREQ_GPS)

/-- The local variable `f` of the constructor: `double f(L2_FREQ_GPS/(L1_FREQ_GPS - L2_FREQ_GPS));`. -/
def f (k : Externals D) : D :=
  k.L2_FREQ_GPS / (k.L1_FREQ_GPS - k.L2_FREQ_GPS)

/-- The local variable `c_GAL` of the constructor: `double c_GAL(L1_FREQ_GAL/( L1_FREQ_GAL + L5_FREQ_GAL ));`. -/
def c_GAL (k : Externals D) : D :=
  k.L1_FREQ_GAL / (k.L1_FREQ_GAL + k.L5_FREQ_GAL)

/-- The local variable `d_GAL` of the constructor: `double d_GAL(L5_FREQ_GAL/( L1_FREQ_GAL + L5_FREQ_GAL ));`. -/
def d_GAL (k : Externals D) : D :=
  k.L5_FREQ_GAL / (k.L1_FREQ_GAL + k.L5_FREQ_GAL)

/-- The local variable `e_GAL` of the constructor: `double e_GAL(L1_FREQ_GAL/( L1_FREQ_GAL - L5_FREQ_GAL ));`. -/
def e_GAL (k : Externals D) : D :=
  k.L1_FREQ_GAL / (k.L1_FREQ_GAL - k.L5_FREQ_GAL)

/-- The local variable `f_GAL` of the constructor: `double f_GAL(L5_FREQ_GAL/( L1_FREQ_GAL - L5_FREQ_GAL ));`. -/
def f_GAL (k : Externals D) : D :=
  k.L5_FREQ_GAL / (k.L1_FREQ_GAL - k.L5_FREQ_GAL)

/-- The member `q1CombWithC1` as the constructor leaves it: header `Q1`, body
entries for `C1`, `P2`, in the order of the assignments. -/
def q1CombWithC1 (k : Externals D) : gnssLinearCombination D :=
  { header := TypeID.Q1,
    body := assignAll [
      (TypeID.C1, x k),
      (TypeID.P2, -(y k)) ] }

/-- The member `q1Combination` as the constructor leaves it: header `Q1`, body
entries for `P1`, `P2`, in the order of the assignments. -/
def q1Combination (k : Externals D) : gnssLinearCombination D :=
  { header := TypeID.Q1,
    body := assignAll [
      (TypeID.P1, x k),
      (TypeID.P2, -(y k)) ] }

/-- The member `q1CombinationGPS` as the constructor leaves it: header `Q1`, body
entries for `P1`, `P2`, in the order of the assignments. -/
def q1CombinationGPS (k : Externals D) : gnssLinearCombination D :=
  { header := TypeID.Q1,
    body := assignAll [
      (TypeID.P1, x k),
      (TypeID.P2, -(y k)) ] }

/-- The member `q1CombinationGalileo` as the constructor leaves it: header `Q1`, body
entries for `C1`, `C5`, in the order of the assignments. -/
def q1CombinationGalileo (k : Externals D) : gnssLinearCombination D :=
  { header := TypeID.Q1,
    body := assignAll [
      (TypeID.C1, x_GAL k),
      (TypeID.C5, -(y_GAL k)) ] }

/-- The member `q2CombWithC1` as the constructor leaves it: header `Q2`, body
entries for `C1`, `P2`, in the order of the assignments. -/
def q2CombWithC1 (k : Externals D) : gnssLinearCombination D :=
  { header := TypeID.Q2,
    body := assignAll [
      (TypeID.C1, z k),
      (TypeID.P2, -(x k)) ] }

/-- The member `q2Combination` as the constructor leaves it: header `Q2`, body
entries for `P1`, `P2`, in the order of the assignments. -/
def q2Combination (k : Externals D) : gnssLinearCombination D :=
  { header := TypeID.Q2,
    body := assignAll [
      (TypeID.P1, z k),
      (TypeID.P2, -(x k)) ] }

/-- The member `q2CombinationGPS` as the constructor leaves it: header `Q2`, body
entries for `P1`, `P2`, in the order of the assignments. -/
def q2CombinationGPS (k : Externals D) : gnssLinearCombination D :=
  { header := TypeID.Q2,
    body := assignAll [
      (TypeID.P1, z k),
      (TypeID.P2, -(x k)) ] }

/-- The member `q5CombinationGalileo` as the constructor leaves it: header `Q5`, body
entries for `C1`, `C5`, in the order of the assignments. -/
def q5CombinationGalileo (k : Externals D) : gnssLinearCombination D :=
  { header := TypeID.Q5,
    body := assignAll [
      (TypeID.C1, z_GAL k),
      (TypeID.C5, -(x_GAL k)) ] }

/-- The member `c1Prefit` as the constructor leaves it: header `prefitC1`, body
entries for `C1`, `rho`, `dtSat`, `rel`, `gravDelay`, `satPCenter`, `tropoSlant`, `instC1`, `corrC1`, in the order of the assignments. -/
def c1Prefit (_k : Externals D) : gnssLinearCombination D :=
  { header := TypeID.prefitC1,
    body := assignAll [
      (TypeID.C1, (1.0 : D)),
      (TypeID.rho, -(1.0 : D)),
      (TypeID.dtSat, (1.0 : D)),
      (TypeID.rel, -(1.0 : D)),
      (TypeID.gravDelay, -(1.0 : D)),
      (TypeID.satPCenter, -(1.0 : D)),
      (TypeID.tropoSlant, -(1.0 : D)),
      (TypeID.instC1, -(1.0 : D)),
      (TypeID.corrC1, -(1.0 : D)) ] }

/-- The member `p1Prefit` as the constructor leaves it: header `prefitP1`, body
entries for `P1`, `rho`, `dtSat`, `rel`, `gravDelay`, `satPCenter`, `tropoSlant`, `instP1`, `corrP1`, in the order of the assignments. -/
def p1Prefit (_k : Externals D) : gnssLinearCombination D :=
  { header := TypeID.prefitP1,
    body := assignAll [
      (TypeID.P1, (1.0 : D)),
      (TypeID.rho, -(1.0 : D)),
      (TypeID.dtSat, (1.0 : D)),
      (TypeID.rel, -(1.0 : D)),
      (TypeID.gravDelay, -(1.0 : D)),
      (TypeID.satPCenter, -(1.0 : D)),
      (TypeID.tropoSlant, -(1.0 : D)),
      (TypeID.instP1, -(1.0 : D)),
      (TypeID.corrP1, -(1.0 : D)) ] }

/-- The member `p2Prefit` as the constructor leaves it: header `prefitP2`, body
entries for `P2`, `rho`, `dtSat`, `rel`, `gravDelay`, `satPCenter`, `tropoSlant`, `instP2`, `corrP2`, in the order of the assignments. -/
def p2Prefit (_k : Externals D) : gnssLinearCombination D :=
  { header := TypeID.prefitP2,
    body := assignAll [
      (TypeID.P2, (1.0 : D)),
      (TypeID.rho, -(1.0 : D)),
      (TypeID.dtSat, (1.0 : D)),
      (TypeID.rel, -(1.0 : D)),
      (TypeID.gravDelay, -(1.0 : D)),
      (TypeID.satPCenter, -(1.0 : D)),
      (TypeID.tropoSlant, -(1.0 : D)),
      (TypeID.instP2, -(1.0 : D)),
      (TypeID.corrP2, -(1.0 : D)) ] }

/-- The member `l1Prefit` as the constructor leaves it: header `prefitL1`, body
entries for `L1`, `rho`, `dtSat`, `updSatL1`, `rel`, `gravDelay`, `satPCenter`, `tropoSlant`, `windUp`, `corrL1`, in the order of the assignments. -/
def l1Prefit (k : Externals D) : gnssLinearCombination D :=
  { header := TypeID.prefitL1,
    body := assignAll [
      (TypeID.L1, (1.0 : D)),
      (TypeID.rho, -(1.0 : D)),
      (TypeID.dtSat, (1.0 : D)),
      (TypeID.updSatL1, (1.0 : D)),
      (TypeID.rel, -(1.0 : D)),
      (TypeID.gravDelay, -(1.0 : D)),
      (TypeID.satPCenter, -(1.0 : D)),
      (TypeID.tropoSlant, -(1.0 : D)),
      (TypeID.windUp, (-k.L1_WAVELENGTH_GPS) / k.TWO_PI),
      (TypeID.corrL1, -(1.0 : D)) ] }

/-- The member `l2Prefit` as the constructor leaves it: header `prefitL2`, body
entries for `L2`, `rho`, `dtSat`, `updSatL2`, `rel`, `gravDelay`, `satPCenter`, `tropoSlant`, `windUp`, `corrL2`, in the order of the assignments. -/
def l2Prefit (k : Externals D) : gnssLinearCombination D :=
  { header := TypeID.prefitL2,
    body := assignAll [
      (TypeID.L2, (1.0 : D)),
      (TypeID.rho, -(1.0 : D)),
      (TypeID.dtSat, (1.0 : D)),
      (TypeID.updSatL2, (1.0 : D)),
      (TypeID.rel, -(1.0 : D)),
      (TypeID.gravDelay, -(1.0 : D)),
      (TypeID.satPCenter, -(1.0 : D)),
      (TypeID.tropoSlant, -(1.0 : D)),
      (TypeID.windUp, (-k.L2_WAVELENGTH_GPS) / k.TWO_PI),
      (TypeID.corrL2, -(1.0 : D)) ] }

/-- The member `pcCombination` as the constructor leaves it: header `PC`, body
entries for `P1`, `P2`, in the order of the assignments. -/
def pcCombination (k : Externals D) : gnssLinearCombination D :=
  { header := TypeID.PC,
    body := assignAll [
      (TypeID.P1, a k),
      (TypeID.P2, -(b k)) ] }

/-- The member `pcCombinationGPS` as the constructor leaves it: header `PC`, body
entries for `P1`, `P2`, in the order of the assignments. -/
def pcCombinationGPS (k : Externals D) : gnssLinearCombination D :=
  { header := TypeID.PC,
    body := assignAll [
      (TypeID.P1, a k),
      (TypeID.P2, -(b k)) ] }

/-- The member `pcCombinationGalileo` as the constructor leaves it: header `PC`, body
entries for `C1`, `C5`, in the order of the assignments. -/
def pcCombinationGalileo (k : Externals D) : gnssLinearCombination D :=
  { header := TypeID.PC,
    body := assignAll [
      (TypeID.C1, a_GAL_L1L5 k),
      (TypeID.C5, -(b_GAL_L1L5 k)) ] }

/-- The member `pcCombWithC1` as the constructor leaves it: header `PC`, body
entries for `C1`, `P2`, in the order of the assignments. -/
def pcCombWithC1 (k : Externals D) : gnssLinearCombination D :=
  { header := TypeID.PC,
    body := assignAll [
      (TypeID.C1, a k),
      (TypeID.P2, -(b k)) ] }

/-- The member `pcPrefit` as the constructor leaves it: header `prefitC`, body
entries for `PC`, `rho`, `dtSat`, `rel`, `gravDelay`, `satPCenter`, `tropoSlant`, `corrPC`, in the order of the assignments. -/
def pcPrefit (_k : Externals D) : gnssLinearCombination D :=
  { header := TypeID.prefitC,
    body := assignAll [
      (TypeID.PC, (1.0 : D)),
      (TypeID.rho, -(1.0 : D)),
      (TypeID.dtSat, (1.0 : D)),
      (TypeID.rel, -(1.0 : D)),
      (TypeID.gravDelay, -(1.0 : D)),
      (TypeID.satPCenter, -(1.0 : D)),
      (TypeID.tropoSlant, -(1.0 : D)),
      (TypeID.corrPC, -(1.0 : D)) ] }

/-- The member `pcPrefitGPS` as the constructor leaves it: header `prefitC`, body
entries for `PC`, `rho`, `dtSat`, `rel`, `gravDelay`, `satPCenter`, `tropoSlant`, `corrPC`, in the order of the assignments. -/
def pcPrefitGPS (_k : Externals D) : gnssLinearCombination D :=
  { header := TypeID.prefitC,
    body := assignAll [
      (TypeID.PC, (1.0 : D)),
      (TypeID.rho, -(1.0 : D)),
      (TypeID.dtSat, (1.0 : D)),
      (TypeID.rel, -(1.0 : D)),
      (TypeID.gravDelay, -(1.0 : D)),
      (TypeID.satPCenter, -(1.0 : D)),
      (TypeID.tropoSlant, -(1.0 : D)),
      (TypeID.corrPC, -(1.0 : D)) ] }

/-- The member `pcPrefitGalileo` as the constructor leaves it: header `prefitC`, body
entries for `PC`, `rho`, `dtSat`, `rel`, `gravDelay`, `satPCenter`, `tropoSlant`, `corrPC`, in the order of the assignments. -/
def pcPrefitGalileo (_k : Externals D) : gnssLinearCombination D :=
  { header := TypeID.prefitC,
    body := assignAll [
      (TypeID.PC, (1.0 : D)),
      (TypeID.rho, -(1.0 : D)),
      (TypeID.dtSat, (1.0 : D)),
      (TypeID.rel, -(1.0 : D)),
      (TypeID.gravDelay, -(1.0 : D)),
      (TypeID.satPCenter, -(1.0 : D)),
      (TypeID.tropoSlant, -(1.0 : D)),
      (TypeID.corrPC, -(1.0 : D)) ] }

/-- The member `lcCombination` as the constructor leaves it: header `LC`, body
entries for `L1`, `L2`, in the order of the assignments. -/
def lcCombination (k : Externals D) : gnssLinearCombination D :=
  { header := TypeID.LC,
    body := assignAll [
      (TypeID.L1, a k),
      (TypeID.L2, -(b k)) ] }

/-- The member `lcCombinationGPS` as the constructor leaves it: header `LC`, body
entries for `L1`, `L2`, in the order of the assignments. -/
def lcCombinationGPS (k : Externals D) : gnssLinearCombination D :=
  { header := TypeID.LC,
    body := assignAll [
      (TypeID.L1, a k),
      (TypeID.L2, -(b k)) ] }

/-- The member `lcCombinationGalileo` as the constructor leaves it: header `LC`, body
entries for `L1`, `L5`, in the order of the assignments. -/
def lcCombinationGalileo (k : Externals D) : gnssLinearCombination D :=
  { header := TypeID.LC,
    body := assignAll [
      (TypeID.L1, a_GAL_L1L5 k),
      (TypeID.L5, -(b_GAL_L1L5 k)) ] }

/-- The member `lcPrefit` as the constructor leaves it: header `prefitL`, body
entries for `LC`, `rho`, `dtSat`, `updSatLC`, `rel`, `gravDelay`, `satPCenter`, `tropoSlant`, `windUp`, `corrLC`, in the order of the assignments. -/
def lcPrefit (k : Externals D) : gnssLinearCombination D :=
  { header := TypeID.prefitL,
    body := assignAll [
      (TypeID.LC, (1.0 : D)),
      (TypeID.rho, -(1.0 : D)),
      (TypeID.dtSat, (1.0 : D)),
      (TypeID.updSatLC, (1.0 : D)),
      (TypeID.rel, -(1.0 : D)),
      (TypeID.gravDelay, -(1.0 : D)),
      (TypeID.satPCenter, -(1.0 : D)),
      (TypeID.tropoSlant, -(1.0 : D)),
      (TypeID.windUp, (-(0.1069533781421467 : D)) / k.TWO_PI),
      (TypeID.corrLC, -(1.0 : D)) ] }

/-- The member `lcPrefitGPS` as the constructor leaves it: header `prefitL`, body
entries for `LC`, `rho`, `dtSat`, `updSatLC`, `rel`, `gravDelay`, `satPCenter`, `tropoSlant`, `windUp`, `corrLC`, in the order of the assignments. -/
def lcPrefitGPS (k : Externals D) : gnssLinearCombination D :=
  { header := TypeID.prefitL,
    body := assignAll [
      (TypeID.LC, (1.0 : D)),
      (TypeID.rho, -(1.0 : D)),
      (TypeID.dtSat, (1.0 : D)),
      (TypeID.updSatLC, (1.0 : D)),
      (TypeID.rel, -(1.0 : D)),
      (TypeID.gravDelay, -(1.0 : D)),
      (TypeID.satPCenter, -(1.0 : D)),
      (TypeID.tropoSlant, -(1.0 : D)),
      (TypeID.windUp, (-(0.1069533781421467 : D)) / k.TWO_PI),
      (TypeID.corrLC, -(1.0 : D)) ] }

/-- The member `lcPrefitGalileo` as the constructor leaves it: header `prefitL`, body
entries for `LC`, `rho`, `dtSat`, `updSatLC`, `rel`, `gravDelay`, `satPCenter`, `tropoSlant`, `windUp`, `corrLC`, in the order of the assignments. -/
def lcPrefitGalileo (k : Externals D) : gnssLinearCombination D :=
  { header := TypeID.prefitL,
    body := assignAll [
      (TypeID.LC, (1.0 : D)),
      (TypeID.rho, -(1.0 : D)),
      (TypeID.dtSat, (1.0 : D)),
      (TypeID.updSatLC, (1.0 : D)),
      (TypeID.rel, -(1.0 : D)),
      (TypeID.gravDelay, -(1.0 : D)),
      (TypeID.satPCenter, -(1.0 : D)),
      (TypeID.tropoSlant, -(1.0 : D)),
      (TypeID.windUp, (((-1 : Int) : D) * k.LC_WAVELENGTH_GAL_L1L5) / k.TWO_PI),
      (TypeID.corrLC, -(1.0 : D)) ] }

/-- The member `pcPrefitC` as the constructor leaves it: header `prefitC`, body
entries for `PC`, `rho`, `rel`, `gravDelay`, `satPCenter`, `tropoSlant`, in the order of the assignments. -/
def pcPrefitC (_k : Externals D) : gnssLinearCombination D :=
  { header := TypeID.prefitC,
    body := assignAll [
      (TypeID.PC, (1.0 : D)),
      (TypeID.rho, -(1.0 : D)),
      (TypeID.rel, -(1.0 : D)),
      (TypeID.gravDelay, -(1.0 : D)),
      (TypeID.satPCenter, -(1.0 : D)),
      (TypeID.tropoSlant, -(1.0 : D)) ] }

/-- The member `lcPrefitC` as the constructor leaves it: header `prefitL`, body
entries for `LC`, `rho`, `rel`, `gravDelay`, `satPCenter`, `tropoSlant`, `windUp`, in the order of the assignments. -/
def lcPrefitC (k : Externals D) : gnssLinearCombination D :=
  { header := TypeID.prefitL,
    body := assignAll [
      (TypeID.LC, (1.0 : D)),
      (TypeID.rho, -(1.0 : D)),
      (TypeID.rel, -(1.0 : D)),
      (TypeID.gravDelay, -(1.0 : D)),
      (TypeID.satPCenter, -(1.0 : D)),
      (TypeID.tropoSlant, -(1.0 : D)),
      (TypeID.windUp, (-(0.1069533781421467 : D)) / k.TWO_PI) ] }

/-- The member `piCombination` as the constructor leaves it: header `PI`, body
entries for `P1`, `P2`, in the order of the assignments. -/
def piCombination (_k : Externals D) : gnssLinearCombination D :=
  { header := TypeID.PI,
    body := assignAll [
      (TypeID.P1, -(1.0 : D)),
      (TypeID.P2, (1.0 : D)) ] }

/-- The member `piCombWithC1` as the constructor leaves it: header `PI`, body
entries for `C1`, `P2`, in the order of the assignments. -/
def piCombWithC1 (_k : Externals D) : gnssLinearCombination D :=
  { header := TypeID.PI,
    body := assignAll [
      (TypeID.C1, -(1.0 : D)),
      (TypeID.P2, (1.0 : D)) ] }

/-- The member `liCombination` as the constructor leaves it: header `LI`, body
entries for `L1`, `L2`, in the order of the assignments. -/
def liCombination (_k : Externals D) : gnssLinearCombination D :=
  { header := TypeID.LI,
    body := assignAll [
      (TypeID.L1, (1.0 : D)),
      (TypeID.L2, -(1.0 : D)) ] }

/-- The member `liCombinationGPS` as the constructor leaves it: header `LI`, body
entries for `L1`, `L2`, in the order of the assignments. -/
def liCombinationGPS (_k : Externals D) : gnssLinearCombination D :=
  { header := TypeID.LI,
    body := assignAll [
      (TypeID.L1, (1.0 : D)),
      (TypeID.L2, -(1.0 : D)) ] }

/-- The member `liCombinationGalileo` as the constructor leaves it: header `LI`, body
entries for `L1`, `L5`, in the order of the assignments. -/
def liCombinationGalileo (_k : Externals D) : gnssLinearCombination D :=
  { header := TypeID.LI,
    body := assignAll [
      (TypeID.L1, (1.0 : D)),
      (TypeID.L5, -(1.0 : D)) ] }

/-- The member `pdeltaCombination` as the constructor leaves it: header `Pdelta`, body
entries for `P1`, `P2`, in the order of the assignments. -/
def pdeltaCombination (k : Externals D) : gnssLinearCombination D :=
  { header := TypeID.Pdelta,
    body := assignAll [
      (TypeID.P1, c k),
      (TypeID.P2, d k) ] }

/-- The member `pdeltaCombinationGPS` as the constructor leaves it: header `Pdelta`, body
entries for `P1`, `P2`, in the order of the assignments. -/
def pdeltaCombinationGPS (k : Externals D) : gnssLinearCombination D :=
  { header := TypeID.Pdelta,
    body := assignAll [
      (TypeID.P1, c k),
      (TypeID.P2, d k) ] }

/-- The member `pdeltaCombinationGalileo` as the constructor leaves it: header `Pdelta`, body
entries for `C1`, `C5`, in the order of the assignments. -/
def pdeltaCombinationGalileo (k : Externals D) : gnssLinearCombination D :=
  { header := TypeID.Pdelta,
    body := assignAll [
      (TypeID.C1, c_GAL k),
      (TypeID.C5, d_GAL k) ] }

/-- The member `pdeltaCombWithC1` as the constructor leaves it: header `Pdelta`, body
entries for `C1`, `P2`, in the order of the assignments. -/
def pdeltaCombWithC1 (k : Externals D) : gnssLinearCombination D :=
  { header := TypeID.Pdelta,
    body := assignAll [
      (TypeID.C1, c k),
      (TypeID.P2, d k) ] }

/-- The member `pdeltaPrefit` as the constructor leaves it: header `prefitPdelta`, body
entries for `Pdelta`, `rho`, `dtSat`, `rel`, `gravDelay`, `satPCenter`, `tropoSlant`, `corrPdelta`, in the order of the assignments. -/
def pdeltaPrefit (_k : Externals D) : gnssLinearCombination D :=
  { header := TypeID.prefitPdelta,
    body := assignAll [
      (TypeID.Pdelta, (1.0 : D)),
      (TypeID.rho, -(1.0 : D)),
      (TypeID.dtSat, (1.0 : D)),
      (TypeID.rel, -(1.0 : D)),
      (TypeID.gravDelay, -(1.0 : D)),
      (TypeID.satPCenter, -(1.0 : D)),
      (TypeID.tropoSlant, -(1.0 : D)),
      (TypeID.corrPdelta, -(1.0 : D)) ] }

/-- The member `ldeltaCombination` as the constructor leaves it: header `Ldelta`, body
entries for `L1`, `L2`, in the order of the assignments. -/
def ldeltaCombination (k : Externals D) : gnssLinearCombination D :=
  { header := TypeID.Ldelta,
    body := assignAll [
      (TypeID.L1, e k),
      (TypeID.L2, -(f k)) ] }

/-- The member `ldeltaCombinationGPS` as the constructor leaves it: header `Ldelta`, body
entries for `L1`, `L2`, in the order of the assignments. -/
def ldeltaCombinationGPS (k : Externals D) : gnssLinearCombination D :=
  { header := TypeID.Ldelta,
    body := assignAll [
      (TypeID.L1, e k),
      (TypeID.L2, -(f k)) ] }

/-- The member `ldeltaCombinationGalileo` as the constructor leaves it: header `Ldelta`, body
entries for `L1`, `L5`, in the order of the assignments. -/
def ldeltaCombinationGalileo (k : Externals D) : gnssLinearCombination D :=
  { header := TypeID.Ldelta,
    body := assignAll [
      (TypeID.L1, e_GAL k),
      (TypeID.L5, -(f_GAL k)) ] }

/-- The member `ldeltaPrefit` as the constructor leaves it: header `prefitLdelta`, body
entries for `Ldelta`, `rho`, `dtSat`, `updSatWL`, `rel`, `gravDelay`, `satPCenter`, `tropoSlant`, `corrLdelta`, in the order of the assignments. -/
def ldeltaPrefit (_k : Externals D) : gnssLinearCombination D :=
  { header := TypeID.prefitLdelta,
    body := assignAll [
      (TypeID.Ldelta, (1.0 : D)),
      (TypeID.rho, -(1.0 : D)),
      (TypeID.dtSat, (1.0 : D)),
      (TypeID.updSatWL, (1.0 : D)),
      (TypeID.rel, -(1.0 : D)),
      (TypeID.gravDelay, -(1.0 : D)),
      (TypeID.satPCenter, -(1.0 : D)),
      (TypeID.tropoSlant, -(1.0 : D)),
      (TypeID.corrLdelta, -(1.0 : D)) ] }

/-- The member `mwubbenaCombination` as the constructor leaves it: header `MWubbena`, body
entries for `L1`, `L2`, `P1`, `P2`, in the order of the assignments. -/
def mwubbenaCombination (k : Externals D) : gnssLinearCombination D :=
  { header := TypeID.MWubbena,
    body := assignAll [
      (TypeID.L1, e k),
      (TypeID.L2, -(f k)),
      (TypeID.P1, -(c k)),
      (TypeID.P2, -(d k)) ] }

/-- The member `mwubbenaCombinationGPS` as the constructor leaves it: header `MWubbena`, body
entries for `L1`, `L2`, `P1`, `P2`, in the order of the assignments. -/
def mwubbenaCombinationGPS (k : Externals D) : gnssLinearCombination D :=
  { header := TypeID.MWubbena,
    body := assignAll [
      (TypeID.L1, e k),
      (TypeID.L2, -(f k)),
      (TypeID.P1, -(c k)),
      (TypeID.P2, -(d k)) ] }

/-- The member `mwubbenaCombinationGalileo` as the constructor leaves it: header `MWubbena`, body
entries for `L1`, `L5`, `C1`, `C5`, in the order of the assignments. -/
def mwubbenaCombinationGalileo (k : Externals D) : gnssLinearCombination D :=
  { header := TypeID.MWubbena,
    body := assignAll [
      (TypeID.L1, e_GAL k),
      (TypeID.L5, -(f_GAL k)),
      (TypeID.C1, -(c_GAL k)),
      (TypeID.C5, -(d_GAL k)) ] }

/-- The member `mwubbenaPrefit` as the constructor leaves it: header `prefitMWubbena`, body
entries for `MWubbena`, `updSatMW`, in the order of the assignments. -/
def mwubbenaPrefit (_k : Externals D) : gnssLinearCombination D :=
  { header := TypeID.prefitMWubbena,
    body := assignAll [
      (TypeID.MWubbena, (1.0 : D)),
      (TypeID.updSatMW, (1.0 : D)) ] }

/-- The member `mwubbenaCombWithC1` as the constructor leaves it: header `MWubbena`, body
entries for `L1`, `L2`, `C1`, `P2`, in the order of the assignments. -/
def mwubbenaCombWithC1 (k : Externals D) : gnssLinearCombination D :=
  { header := TypeID.MWubbena,
    body := assignAll [
      (TypeID.L1, e k),
      (TypeID.L2, -(f k)),
      (TypeID.C1, -(c k)),
      (TypeID.P2, -(d k)) ] }

/-- The member `GRAPHIC1Combination` as the constructor leaves it: header `GRAPHIC1`, body
entries for `P1`, `L1`, in the order of the assignments. -/
def GRAPHIC1Combination (_k : Externals D) : gnssLinearCombination D :=
  { header := TypeID.GRAPHIC1,
    body := assignAll [
      (TypeID.P1, (0.5 : D)),
      (TypeID.L1, (0.5 : D)) ] }

/-- The member `GRAPHIC1CombinationWithC1` as the constructor leaves it: header `GRAPHIC1`, body
entries for `C1`, `L1`, in the order of the assignments. -/
def GRAPHIC1CombinationWithC1 (_k : Externals D) : gnssLinearCombination D :=
  { header := TypeID.GRAPHIC1,
    body := assignAll [
      (TypeID.C1, (0.5 : D)),
      (TypeID.L1, (0.5 : D)) ] }

/-- The member `GRAPHIC2Combination` as the constructor leaves it: header `GRAPHIC2`, body
entries for `P2`, `L2`, in the order of the assignments. -/
def GRAPHIC2Combination (_k : Externals D) : gnssLinearCombination D :=
  { header := TypeID.GRAPHIC2,
    body := assignAll [
      (TypeID.P2, (0.5 : D)),
      (TypeID.L2, (0.5 : D)) ] }

/-- The member `GRAPHIC5Combination` as the constructor leaves it: header `GRAPHIC5`, body
entries for `C5`, `L5`, in the order of the assignments. -/
def GRAPHIC5Combination (_k : Externals D) : gnssLinearCombination D :=
  { header := TypeID.GRAPHIC5,
    body := assignAll [
      (TypeID.C5, (0.5 : D)),
      (TypeID.L5, (0.5 : D)) ] }

/-- The member `GRAPHIC6Combination` as the constructor leaves it: header `GRAPHIC6`, body
entries for `C6`, `L6`, in the order of the assignments. -/
def GRAPHIC6Combination (_k : Externals D) : gnssLinearCombination D :=
  { header := TypeID.GRAPHIC6,
    body := assignAll [
      (TypeID.C6, (0.5 : D)),
      (TypeID.L6, (0.5 : D)) ] }

/-- The member `GRAPHIC7Combination` as the constructor leaves it: header `GRAPHIC7`, body
entries for `C7`, `L7`, in the order of the assignments. -/
def GRAPHIC7Combination (_k : Externals D) : gnssLinearCombination D :=
  { header := TypeID.GRAPHIC7,
    body := assignAll [
      (TypeID.C7, (0.5 : D)),
      (TypeID.L7, (0.5 : D)) ] }

/-- The member `GRAPHIC8Combination` as the constructor leaves it: header `GRAPHIC8`, body
entries for `C8`, `L8`, in the order of the assignments. -/
def GRAPHIC8Combination (_k : Externals D) : gnssLinearCombination D :=
  { header := TypeID.GRAPHIC8,
    body := assignAll [
      (TypeID.C8, (0.5 : D)),
      (TypeID.L8, (0.5 : D)) ] }

/-- The member `wlCombination` as the constructor leaves it: header `WL`, body
entries for `L1`, `L2`, in the order of the assignments. -/
def wlCombination (k : Externals D) : gnssLinearCombination D :=
  { header := TypeID.WL,
    body := assignAll [
      (TypeID.L1, firstFactorOfLC 1 (-1) k.f1Default k.f2Default),
      (TypeID.L2, secondFactorOfLC 1 (-1) k.f1Default k.f2Default) ] }

/-- The member `wlPrefit` as the constructor leaves it: header `prefitWL`, body
entries for `WL`, `rho`, `dtSat`, `rel`, `gravDelay`, `satPCenter`, `tropoSlant`, `ionoL1`, `windUp`, in the order of the assignments. -/
def wlPrefit (k : Externals D) : gnssLinearCombination D :=
  { header := TypeID.prefitWL,
    body := assignAll [
      (TypeID.WL, (1.0 : D)),
      (TypeID.rho, -(1.0 : D)),
      (TypeID.dtSat, (1.0 : D)),
      (TypeID.rel, -(1.0 : D)),
      (TypeID.gravDelay, -(1.0 : D)),
      (TypeID.satPCenter, -(1.0 : D)),
      (TypeID.tropoSlant, -(1.0 : D)),
      (TypeID.ionoL1, (firstFactorOfLC 1 (-1) k.f1Default k.f2Default) + ((secondFactorOfLC 1 (-1) k.f1Default k.f2Default) * k.GAMMA_GPS)),
      (TypeID.windUp, (-(wavelengthOfLC k.C_MPS 1 (-1) k.f1Default k.f2Default)) / k.TWO_PI) ] }

/-- The member `wl2Combination` as the constructor leaves it: header `WL2`, body
entries for `L1`, `L2`, in the order of the assignments. -/
def wl2Combination (k : Externals D) : gnssLinearCombination D :=
  { header := TypeID.WL2,
    body := assignAll [
      (TypeID.L1, firstFactorOfLC (-2) 3 k.f1Default k.f2Default),
      (TypeID.L2, secondFactorOfLC (-2) 3 k.f1Default k.f2Default) ] }

/-- The member `wl2Prefit` as the constructor leaves it: header `prefitWL2`, body
entries for `WL2`, `rho`, `dtSat`, `rel`, `gravDelay`, `satPCenter`, `tropoSlant`, `ionoL1`, `windUp`, in the order of the assignments. -/
def wl2Prefit (k : Externals D) : gnssLinearCombination D :=
  { header := TypeID.prefitWL2,
    body := assignAll [
      (TypeID.WL2, (1.0 : D)),
      (TypeID.rho, -(1.0 : D)),
      (TypeID.dtSat, (1.0 : D)),
      (TypeID.rel, -(1.0 : D)),
      (TypeID.gravDelay, -(1.0 : D)),
      (TypeID.satPCenter, -(1.0 : D)),
      (TypeID.tropoSlant, -(1.0 : D)),
      (TypeID.ionoL1, (firstFactorOfLC (-2) 3 k.f1Default k.f2Default) + ((secondFactorOfLC (-2) 3 k.f1Default k.f2Default) * k.GAMMA_GPS)),
      (TypeID.windUp, (-(wavelengthOfLC k.C_MPS (-2) 3 k.f1Default k.f2Default)) / k.TWO_PI) ] }

/-- The member `wl4Combination` as the constructor leaves it: header `WL4`, body
entries for `L1`, `L2`, in the order of the assignments. -/
def wl4Combination (k : Externals D) : gnssLinearCombination D :=
  { header := TypeID.WL4,
    body := assignAll [
      (TypeID.L1, firstFactorOfLC 4 (-5) k.f1Default k.f2Default),
      (TypeID.L2, secondFactorOfLC 4 (-5) k.f1Default k.f2Default) ] }

/-- The member `wl4Prefit` as the constructor leaves it: header `prefitWL4`, body
entries for `WL4`, `rho`, `dtSat`, `rel`, `gravDelay`, `satPCenter`, `tropoSlant`, `ionoL1`, `windUp`, in the order of the assignments. -/
def wl4Prefit (k : Externals D) : gnssLinearCombination D :=
  { header := TypeID.prefitWL4,
    body := assignAll [
      (TypeID.WL4, (1.0 : D)),
      (TypeID.rho, -(1.0 : D)),
      (TypeID.dtSat, (1.0 : D)),
      (TypeID.rel, -(1.0 : D)),
      (TypeID.gravDelay, -(1.0 : D)),
      (TypeID.satPCenter, -(1.0 : D)),
      (TypeID.tropoSlant, -(1.0 : D)),
      (TypeID.ionoL1, (firstFactorOfLC 4 (-5) k.f1Default k.f2Default) + ((secondFactorOfLC 4 (-5) k.f1Default k.f2Default) * k.GAMMA_GPS)),
      (TypeID.windUp, (-(wavelengthOfLC k.C_MPS 4 (-5) k.f1Default k.f2Default)) / k.TWO_PI) ] }

end LinearCombinationsMGEX

/-! ## Ambiguity fixing statistics of `SolverUpdNL` (SolverUpdNL.hpp)

The counters are C++ `int`; the embedding counts in `Int` and does not model the
overflow of a counter, which a run reaches only after `2^31` ambiguities of one
satellite. -/

/-- The C++ comparison `a < b` on doubles: false as soon as one side is NaN. -/
def Double.lt (a b : Double) : Bool := Double.le a b && !Double.le b a

/-- The lookup `m.find(key)` of a `std::map`: the value stored for `key`, if
there is one. -/
def mapGet {K V : Type} [DecidableEq K] (m : List (K × V)) (key : K) : Option V :=
  (m.find? (fun entry => decide (entry.1 = key))).map Prod.snd

/-- The assignment `m[key] = value` of a `std::map`: the entry of `key` is
overwritten if there is one, and added otherwise. -/
def mapSet {K V : Type} [DecidableEq K] (m : List (K × V)) (key : K) (value : V) :
    List (K × V) :=
  if m.any (fun entry => decide (entry.1 = key)) then
    m.map (fun entry => if entry.1 = key then (key, value) else entry)
  else
    m ++ [(key, value)]

/-- The structure `SolverUpdNL::fixingData`: the fixing data of one satellite. -/
structure fixingData where
  floatAmbNumb : Int
  fixedAmbNumb : Int
  fixingRate : Double
  deriving DecidableEq

/-- The default constructor `fixingData()`, with the member initialisers
`floatAmbNumb(0), fixedAmbNumb(0), fixingRate(0.0)`. -/
def fixingData.new : fixingData :=
  { floatAmbNumb := 0, fixedAmbNumb := 0, fixingRate := Double.fin 0 }

/-- The type of the member `fixingDataMap`, a `std::map<SatID, fixingData>`. -/
abbrev fixingDataMap := List (SatID × fixingData)

/-- The access `fixingDataMap[sat]` of `std::map`: if the map has no entry for
`sat`, one is made by the default constructor of `fixingData` and inserted.
The result is the map after the access and the entry accessed. -/
def fixingDataMap.access (map : fixingDataMap) (sat : SatID) : fixingDataMap × fixingData :=
  match mapGet map sat with
  | some entry => (map, entry)
  | none => (map ++ [(sat, fixingData.new)], fixingData.new)

/-- Modelled from the spec: the integer nearest to an estimate, `round(estimate)`
of spec 8 ("|estimate − round(estimate)| < tol"), which the body of
`AmbiguityConstr` in SolverUpdNL.cpp computes and the sources at hand do not
contain.  A tie goes away from zero, as C++ `round` does. -/
def nearestInteger (q : ℚ) : Int :=
  if 0 ≤ q then (q + 1 / 2).floor else -((-q + 1 / 2).floor)

/-- Modelled from the spec: the fix test of `AmbiguityConstr`, whose body is in
SolverUpdNL.cpp and not among the sources at hand.  Spec 4.4: "the ambiguity is
declared fixed when its estimated value is within a configured tolerance of the
nearest integer AND the estimation variance is below a configured threshold";
spec 8: "both |estimate − round(estimate)| < tol AND variance < varThresh".  An
estimate that is not finite is not fixed.  The distance of a double to its
nearest integer is a double, so the test is on exact values. -/
def fixTest (tol varThresh estimate variance : Double) : Bool :=
  match estimate with
  | Double.fin x =>
    Double.lt (Double.fin |x - (nearestInteger x : ℚ)|) tol && Double.lt variance varThresh
  | _ => false

/-- Modelled from the spec: the value recorded for a fixed ambiguity, "its fixed
integer value (represented as real)" of spec 3: `round(estimate)`. -/
def fixedValue (estimate : Double) : Double :=
  match estimate with
  | Double.fin x => Double.fin (nearestInteger x : ℚ)
  | other => other

/-- Modelled from the spec: a float ambiguity as the fixing pass of
`AmbiguityConstr` meets it: its `Variable` (a class declared outside the sources
at hand, here a type parameter), the satellite that owns it, its estimate and
the variance of the estimate. -/
structure FloatAmbiguity (Variable : Type) where
  var : Variable
  sat : SatID
  estimate : Double
  variance : Double

/-- The members of `SolverUpdNL` that the fixing pass writes: `ambFixedMap`, a
`VariableDataMap`, and `fixingDataMap`. -/
structure FixingState (Variable : Type) where
  ambFixedMap : List (Variable × Double)
  fixingDataMap : fixingDataMap

/-- Modelled from the spec: what the fixing pass of `AmbiguityConstr` (body in
SolverUpdNL.cpp, not among the sources at hand) does with one float ambiguity.
Spec 4.4: "Fixed values are recorded in `ambFixedMap`; per-satellite
`fixingData` counters are incremented (float count always; fixed count only on
success) and `fixingRate` recomputed as fixed/float"; spec 3: "a satellite entry
is created on first encounter"; spec 8: the rate "equals fixedCount/floatCount
exactly", which is the exact quotient here. -/
def fixOne {Variable : Type} [DecidableEq Variable] (tol varThresh : Double)
    (state : FixingState Variable) (amb : FloatAmbiguity Variable) : FixingState Variable :=
  let accessed := state.fixingDataMap.access amb.sat
  let entry := accessed.2
  let fixed := fixTest tol varThresh amb.estimate amb.variance
  let floatAmbNumb := entry.floatAmbNumb + 1
  let fixedAmbNumb := if fixed then entry.fixedAmbNumb + 1 else entry.fixedAmbNumb
  let updated : fixingData :=
    { floatAmbNumb := floatAmbNumb,
      fixedAmbNumb := fixedAmbNumb,
      fixingRate := Double.fin ((fixedAmbNumb : ℚ) / (floatAmbNumb : ℚ)) }
  { ambFixedMap :=
      if fixed then mapSet state.ambFixedMap amb.var (fixedValue amb.estimate)
      else state.ambFixedMap,
    fixingDataMap := mapSet accessed.1 amb.sat updated }

/-- Modelled from the spec: the fixing pass over the float ambiguities met so
far in an epoch, one after the other. -/
def fixAll {Variable : Type} [DecidableEq Variable] (tol varThresh : Double)
    (state : FixingState Variable) : List (FloatAmbiguity Variable) → FixingState Variable
  | [] => state
  | amb :: rest => fixAll tol varThresh (fixOne tol varThresh state amb) rest

/-- Modelled from the spec: the fixing pass of `AmbiguityConstr` for one epoch
(body in SolverUpdNL.cpp, not among the sources at hand): `ambFixedMap` is
"cleared/rebuilt every epoch" (spec 3), then "for every remaining float
ambiguity" the fix test is evaluated and recorded (spec 4.4).  The injection of
the datum constraints that precedes it is not part of this model. -/
def AmbiguityConstr {Variable : Type} [DecidableEq Variable] (tol varThresh : Double)
    (ambs : List (FloatAmbiguity Variable)) (state : FixingState Variable) :
    FixingState Variable :=
  fixAll tol varThresh { state with ambFixedMap := [] } ambs

/-- The fixing members of a solver as its constructor leaves them: both maps
default-constructed, that is empty. -/
def FixingState.new {Variable : Type} : FixingState Variable :=
  { ambFixedMap := [], fixingDataMap := [] }

/-- Modelled from the spec: the fixing passes of a run of epochs, each with its
float ambiguities, on one solver ("accumulates for the lifetime of the solver
instance", spec 3). -/
def runEpochs {Variable : Type} [DecidableEq Variable] (tol varThresh : Double)
    (state : FixingState Variable) :
    List (List (FloatAmbiguity Variable)) → FixingState Variable
  | [] => state
  | ambs :: rest => runEpochs tol varThresh (AmbiguityConstr tol varThresh ambs state) rest

/-- The relation the counters and the rate of one `fixingData` are to keep: at
least one float ambiguity was counted, the fixed count lies between zero and the
float count, and the rate is the quotient of the two counts. -/
def fixingData.consistent (fd : fixingData) : Prop :=
  1 ≤ fd.floatAmbNumb ∧ 0 ≤ fd.fixedAmbNumb ∧ fd.fixedAmbNumb ≤ fd.floatAmbNumb ∧
    fd.fixingRate = Double.fin ((fd.fixedAmbNumb : ℚ) / (fd.floatAmbNumb : ℚ))

/-- Three float ambiguities of satellite `G05` in one epoch: estimates 5.001 and
-2.0004 with variance 0.0001, and 4.95 with variance 1000000. -/
def sampleAmbiguities : List (FloatAmbiguity Nat) :=
  [ { var := 1, sat := ⟨1, 5⟩, estimate := Double.fin (5001 / 1000),
      variance := Double.fin (1 / 10000) },
    { var := 2, sat := ⟨1, 5⟩, estimate := Double.fin (495 / 100),
      variance := Double.fin 1000000 },
    { var := 3, sat := ⟨1, 5⟩, estimate := Double.fin (-20004 / 10000),
      variance := Double.fin (1 / 10000) } ]

/-! ## Time update of `SolverUpdNL` (SolverUpdNL.hpp)

The body of `TimeUpdate` is in SolverUpdNL.cpp; the model below follows the
spec, in exact arithmetic. -/

/-- Modelled from the spec: a dense real vector (`Vector<double>`, declared
outside the sources at hand): the list of its entries. -/
abbrev DenseVector := List ℚ

/-- Modelled from the spec: a dense real matrix (`Matrix<double>`, declared
outside the sources at hand): the list of its rows. -/
abbrev DenseMatrix := List (List ℚ)

/-- Modelled from the spec: the entry `v(i)` of a vector (`Vector<double>` is
declared outside the sources at hand), 0 outside of it. -/
def DenseVector.entry (v : DenseVector) (i : Nat) : ℚ := v.getD i 0

/-- Modelled from the spec: the entry `m(i, j)` of a matrix (`Matrix<double>` is
declared outside the sources at hand), 0 outside of it. -/
def DenseMatrix.entry (m : DenseMatrix) (i j : Nat) : ℚ := (m.getD i []).getD j 0

/-- Modelled from the spec: the dimension test of spec 4.4 ("sized to the
current live-Variable count"): a matrix has `rows` rows of `cols` entries
each. -/
def DenseMatrix.isSize (m : DenseMatrix) (rows cols : Nat) : Bool :=
  m.length == rows && m.all (fun row => row.length == cols)

/-- Modelled from the spec: column `j` of a matrix, for the matrix product. -/
def DenseMatrix.column (m : DenseMatrix) (j : Nat) : DenseVector :=
  m.map (fun row => row.getD j 0)

/-- Modelled from the spec: the scalar product of two vectors, for the products
`Φ·x` and `Φ·P·Φᵗ` of spec 4.4. -/
def dot (u v : DenseVector) : ℚ := (List.zipWith (fun a b => a * b) u v).sum

/-- Modelled from the spec: the product of a matrix and a vector, `Φ·x` in
spec 4.4. -/
def DenseMatrix.mulVec (m : DenseMatrix) (v : DenseVector) : DenseVector :=
  m.map (fun row => dot row v)

/-- Modelled from the spec: the product `a·b` of two matrices, `b` having `cols`
columns; `Φ·P` in spec 4.4. -/
def DenseMatrix.mul (a b : DenseMatrix) (cols : Nat) : DenseMatrix :=
  a.map (fun row => (List.range cols).map (fun j => dot row (b.column j)))

/-- Modelled from the spec: the product `a·bᵗ` of a matrix and the transpose of
a matrix; `(Φ·P)·Φᵗ` in spec 4.4. -/
def DenseMatrix.mulTranspose (a b : DenseMatrix) : DenseMatrix :=
  a.map (fun row => b.map (fun other => dot row other))

/-- Modelled from the spec: the sum of two matrices; `… + Q` in spec 4.4. -/
def DenseMatrix.add (a b : DenseMatrix) : DenseMatrix :=
  List.zipWith (fun rowA rowB => List.zipWith (fun x y => x + y) rowA rowB) a b

/-- The members of `SolverUpdNL` that hold the filter state: the a posteriori
state `xhat` and covariance `P`, the predicted state `xhatminus` and covariance
`Pminus`. -/
structure FilterState where
  xhat : DenseVector
  P : DenseMatrix
  xhatminus : DenseVector
  Pminus : DenseMatrix
  deriving DecidableEq

/-- The exceptions named in the throw specifications of `SolverUpdNL`. -/
inductive SolverException where
  | ProcessingException
  | InvalidSolver
  deriving DecidableEq, Repr

/-- What a call on the solver leaves behind: the filter state when control
leaves the call, and the exception thrown, if any. -/
structure SolverOutcome where
  state : FilterState
  raised : Option SolverException
  deriving DecidableEq

/-- Modelled from the spec: the member `TimeUpdate(phiMatrix,
processNoiseCovariance)`, declared in SolverUpdNL.hpp and defined in
SolverUpdNL.cpp, which is not among the sources at hand.  Spec 4.4: "given a
state-transition matrix Φ and process-noise covariance Q sized to the current
live-Variable count, computes the predicted state x⁻ = Φ·x and predicted
covariance P⁻ = Φ·P·Φᵗ + Q.  Fails with a numerical-instability condition if Φ/Q
dimensions mismatch the live-Variable count."  The live-Variable count is the
length of `xhat`; the failure is the `InvalidSolver` of the throw
specification. -/
def TimeUpdate (state : FilterState) (phiMatrix processNoiseCovariance : DenseMatrix) :
    SolverOutcome :=
  let n := state.xhat.length
  if phiMatrix.isSize n n && processNoiseCovariance.isSize n n then
    { state :=
        { state with
          xhatminus := phiMatrix.mulVec state.xhat,
          Pminus := ((phiMatrix.mul state.P n).mulTranspose phiMatrix).add
            processNoiseCovariance },
      raised := none }
  else
    { state := state, raised := some SolverException.InvalidSolver }

/-- A vector of `n` entries as a function on `Fin n`. -/
def DenseVector.toFun (v : DenseVector) (n : Nat) : Fin n → ℚ :=
  fun i => v.entry i

/-- A matrix of `rows` by `cols` entries as a `Matrix`. -/
def DenseMatrix.toMatrix (m : DenseMatrix) (rows cols : Nat) : Matrix (Fin rows) (Fin cols) ℚ :=
  Matrix.of (fun i j => m.entry i j)

/-- A filter state of two live variables: `x = (1, 2)`, `P` the identity. -/
def sampleFilterState : FilterState :=
  { xhat := [1, 2], P := [[1, 0], [0, 1]], xhatminus := [], Pminus := [] }

/-- A set of values for the externals, to evaluate the table with: the speed of
light 299792458 m/s, the GPS frequencies 1575.42 MHz and 1227.60 MHz with their
wavelengths, the Galileo E1 and E5a frequencies 1575.42 MHz and 1176.45 MHz,
`GAMMA_GPS` 1.646944444, and the GPS frequencies as default `f1` and `f2`. -/
def sampleExternals {D : Type} [OfScientific D] : Externals D :=
  { C_MPS := 2.99792458e8,
    TWO_PI := 6.283185307179586,
    L1_FREQ_GPS := 1575.42e6,
    L2_FREQ_GPS := 1227.60e6,
    L1_WAVELENGTH_GPS := 0.190293672798365,
    L2_WAVELENGTH_GPS := 0.244210213424568,
    GAMMA_GPS := 1.646944444,
    L1_FREQ_GAL := 1575.42e6,
    L5_FREQ_GAL := 1176.45e6,
    GAMMA_GAL_L1L5 := 1.793270321,
    LC_WAVELENGTH_GAL_L1L5 := 0.108941359,
    f1Default := 1575.42e6,
    f2Default := 1227.60e6 }

/-! ## Theorems: `SimpleFilter` -/

/-- C1: `checkValue` accepts a value exactly when it lies between the two
limits, both limits included.  For finite limits and a finite value this is
`minLimit ≤ value ≤ maxLimit` on the values themselves; in general it is the
conjunction of the two C++ comparisons, so a NaN is never accepted.  Under the
default limits 15000000 and 30000000 are accepted, 14999999 and 30000001 are
rejected. -/
theorem checkValue_inclusive_bounds :
    (∀ (types : TypeIDSet) (lo hi v : ℚ),
      SimpleFilter.checkValue ⟨types, .fin lo, .fin hi⟩ (.fin v) = true ↔ lo ≤ v ∧ v ≤ hi) ∧
    (∀ (self : SimpleFilter) (value : Double),
      self.checkValue value = true ↔
        Double.le self.minLimit value = true ∧ Double.le value self.maxLimit = true) ∧
    (∀ self : SimpleFilter, self.checkValue .nan = false) ∧
    SimpleFilter.checkValue SimpleFilter.new (.fin 15000000) = true ∧
    SimpleFilter.checkValue SimpleFilter.new (.fin 14999999) = false ∧
    SimpleFilter.checkValue SimpleFilter.new (.fin 30000000) = true ∧
    SimpleFilter.checkValue SimpleFilter.new (.fin 30000001) = false := by
  refine ⟨?_, ?_, ?_, by decide, by decide, by decide, by decide⟩
  · intro types lo hi v
    simp [SimpleFilter.checkValue, Double.ge, Double.le]
  · intro self value
    simp [SimpleFilter.checkValue, Double.ge]
  · intro self
    simp [SimpleFilter.checkValue, Double.ge, Double.le]

/-- The test of one satellite record, spelled out: every configured type has a
stored value, and that value passes `checkValue`. -/
theorem satWithinBounds_iff (self : SimpleFilter) (tvMap : typeValueMap) :
    self.satWithinBounds tvMap = true ↔
      ∀ type ∈ self.filterTypeSet,
        ∃ value, tvMap.getValue type = some value ∧ self.checkValue value = true := by
  unfold SimpleFilter.satWithinBounds
  rw [decide_eq_true_iff]
  constructor
  · intro h type htype
    have hOne := h type htype
    unfold SimpleFilter.typeWithinBounds at hOne
    cases hget : tvMap.getValue type with
    | none => simp [hget] at hOne
    | some value => exact ⟨value, rfl, by simpa [hget] using hOne⟩
  · intro h type htype
    obtain ⟨value, hget, hcheck⟩ := h type htype
    simp [SimpleFilter.typeWithinBounds, hget, hcheck]

/-- The filtering pass keeps exactly the entries whose record passes the test. -/
theorem mem_removeRejected (self : SimpleFilter) (gData : satTypeValueMap)
    (entry : SatID × typeValueMap) :
    entry ∈ self.removeRejected gData ↔
      entry ∈ gData ∧ self.satWithinBounds entry.2 = true := by
  induction gData with
  | nil => simp [SimpleFilter.removeRejected]
  | cons head rest ih =>
    obtain ⟨sat, tvMap⟩ := head
    unfold SimpleFilter.removeRejected
    by_cases hkeep : self.satWithinBounds tvMap = true
    · rw [if_pos hkeep, List.mem_cons, List.mem_cons, ih]
      constructor
      · rintro (rfl | ⟨hmem, hok⟩)
        · exact ⟨Or.inl rfl, hkeep⟩
        · exact ⟨Or.inr hmem, hok⟩
      · rintro ⟨rfl | hmem, hok⟩
        · exact Or.inl rfl
        · exact Or.inr ⟨hmem, hok⟩
    · rw [if_neg hkeep, List.mem_cons, ih]
      constructor
      · rintro ⟨hmem, hok⟩
        exact ⟨Or.inr hmem, hok⟩
      · rintro ⟨rfl | hmem, hok⟩
        · exact absurd hok hkeep
        · exact ⟨hmem, hok⟩

/-- The filtering pass only drops entries: what is left is the input with some
entries taken out, the others in place and as they were. -/
theorem removeRejected_sublist (self : SimpleFilter) (gData : satTypeValueMap) :
    List.Sublist (self.removeRejected gData) gData := by
  induction gData with
  | nil => simp [SimpleFilter.removeRejected]
  | cons head rest ih =>
    obtain ⟨sat, tvMap⟩ := head
    unfold SimpleFilter.removeRejected
    by_cases hkeep : self.satWithinBounds tvMap = true
    · rw [if_pos hkeep]
      exact ih.cons₂ _
    · rw [if_neg hkeep]
      exact ih.cons _

/-- C2: on an epoch map with at least the minimum number of satellites,
`Process` raises nothing and keeps the entry of a satellite if and only if
every type of `filterTypeSet` has a value in its record and that value passes
`checkValue`; a satellite with a configured type missing or out of bounds has
no entry left, and what is left is the input with those entries taken out, the
kept records unchanged. -/
theorem Process_keeps_exactly_within_bounds (self : SimpleFilter) (gData : satTypeValueMap)
    (hEnough : SimpleFilter.minSatNumber ≤ gData.numSats) :
    (self.Process gData).raised = none ∧
    (∀ (sat : SatID) (tvMap : typeValueMap),
      (sat, tvMap) ∈ (self.Process gData).data ↔
        (sat, tvMap) ∈ gData ∧
          ∀ type ∈ self.filterTypeSet,
            ∃ value, tvMap.getValue type = some value ∧ self.checkValue value = true) ∧
    List.Sublist (self.Process gData).data gData := by
  have hnot : ¬ gData.numSats < SimpleFilter.minSatNumber := Nat.not_lt.mpr hEnough
  unfold SimpleFilter.Process
  rw [if_neg hnot]
  refine ⟨rfl, ?_, removeRejected_sublist self gData⟩
  intro sat tvMap
  show (sat, tvMap) ∈ self.removeRejected gData ↔ _
  rw [mem_removeRejected, satWithinBounds_iff]

/-- C2, at the sample epoch under the default filter. -/
theorem Process_keeps_exactly_within_bounds_witness :
    SimpleFilter.minSatNumber ≤ sampleEpoch.numSats ∧
    ((SimpleFilter.new.Process sampleEpoch).raised = none ∧
    (∀ (sat : SatID) (tvMap : typeValueMap),
      (sat, tvMap) ∈ (SimpleFilter.new.Process sampleEpoch).data ↔
        (sat, tvMap) ∈ sampleEpoch ∧
          ∀ type ∈ SimpleFilter.new.filterTypeSet,
            ∃ value, tvMap.getValue type = some value ∧
              SimpleFilter.new.checkValue value = true) ∧
    List.Sublist (SimpleFilter.new.Process sampleEpoch).data sampleEpoch) :=
  ⟨by decide, Process_keeps_exactly_within_bounds SimpleFilter.new sampleEpoch (by decide)⟩

/-- C3: on an epoch map of fewer than 4 satellites `Process` leaves with
`SVNumException` and the map as it was, no satellite removed; on a map of 4 or
more satellites `SVNumException` is not raised. -/
theorem Process_too_few_satellites (self : SimpleFilter) (gData : satTypeValueMap) :
    (gData.numSats < 4 →
      (self.Process gData).raised = some Exception.SVNumException ∧
      (self.Process gData).data = gData) ∧
    (4 ≤ gData.numSats →
      (self.Process gData).raised ≠ some Exception.SVNumException) := by
  constructor
  · intro hFew
    have hlt : gData.numSats < SimpleFilter.minSatNumber := hFew
    unfold SimpleFilter.Process
    rw [if_pos hlt]
    exact ⟨rfl, rfl⟩
  · intro hEnough
    have hnot : ¬ gData.numSats < SimpleFilter.minSatNumber := Nat.not_lt.mpr hEnough
    unfold SimpleFilter.Process
    rw [if_neg hnot]
    simp

/-- C3, at the three-satellite epoch (whose satellites would all pass the
bounds) and at the four-satellite sample epoch. -/
theorem Process_too_few_satellites_witness :
    (shortEpoch.numSats < 4 ∧
      (SimpleFilter.new.Process shortEpoch).raised = some Exception.SVNumException ∧
      (SimpleFilter.new.Process shortEpoch).data = shortEpoch) ∧
    (4 ≤ sampleEpoch.numSats ∧
      (SimpleFilter.new.Process sampleEpoch).raised ≠ some Exception.SVNumException) :=
  ⟨⟨by decide, (Process_too_few_satellites SimpleFilter.new shortEpoch).1 (by decide)⟩,
   ⟨by decide, (Process_too_few_satellites SimpleFilter.new sampleEpoch).2 (by decide)⟩⟩

/-- C4: the default constructor gives the filtered-type set `{C1}` and the
limits 15000000.0 and 30000000.0; a one-type constructor gives the set
`{type}`, a set constructor gives the set passed; a constructor without limit
arguments uses 15000000.0 and 30000000.0, one with limit arguments stores
them. -/
theorem constructors_types_and_limits :
    SimpleFilter.new = ⟨{TypeID.C1}, .fin 15000000, .fin 30000000⟩ ∧
    (∀ type : TypeID,
      SimpleFilter.ofType type = ⟨{type}, .fin 15000000, .fin 30000000⟩) ∧
    (∀ (type : TypeID) (min max : Double),
      SimpleFilter.ofTypeLimits type min max = ⟨{type}, min, max⟩) ∧
    (∀ typeSet : TypeIDSet,
      SimpleFilter.ofTypeSet typeSet = ⟨typeSet, .fin 15000000, .fin 30000000⟩) ∧
    (∀ (typeSet : TypeIDSet) (min max : Double),
      SimpleFilter.ofTypeSetLimits typeSet min max = ⟨typeSet, min, max⟩) := by
  refine ⟨?_, ?_, ?_, ?_, ?_⟩
  · simp [SimpleFilter.new, SimpleFilter.setFilteredType, SimpleFilter.initLimits]
  · intro type
    simp [SimpleFilter.ofType, SimpleFilter.setFilteredType, SimpleFilter.initLimits]
  · intro type min max
    simp [SimpleFilter.ofTypeLimits, SimpleFilter.setFilteredType, SimpleFilter.initLimits]
  · intro typeSet
    rfl
  · intro typeSet min max
    rfl

/-- C5: `Process` on a `gnssSatTypeValue` and on a `gnssRinex` hand back the
object they were given with its header unchanged and with the body that
`Process` on the bare satellite map leaves behind, and they raise exactly what
that call raises, whatever the satellite-map `Process` of the object is; so
objects of either kind with the same body end with the same body and the same
exception. -/
theorem Process_same_at_every_granularity {H H' : Type}
    (mapProcess : satTypeValueMap → Outcome satTypeValueMap) :
    (∀ gData : gnssSatTypeValue H,
      (SimpleFilter.Process_gnssSatTypeValue mapProcess gData).data.header = gData.header ∧
      (SimpleFilter.Process_gnssSatTypeValue mapProcess gData).data.body =
        (mapProcess gData.body).data ∧
      (SimpleFilter.Process_gnssSatTypeValue mapProcess gData).raised =
        (mapProcess gData.body).raised) ∧
    (∀ gData : gnssRinex H',
      (SimpleFilter.Process_gnssRinex mapProcess gData).data.header = gData.header ∧
      (SimpleFilter.Process_gnssRinex mapProcess gData).data.body =
        (mapProcess gData.body).data ∧
      (SimpleFilter.Process_gnssRinex mapProcess gData).raised =
        (mapProcess gData.body).raised) ∧
    (∀ (header : H) (header' : H') (body : satTypeValueMap),
      (SimpleFilter.Process_gnssSatTypeValue mapProcess ⟨header, body⟩).data.body =
        (SimpleFilter.Process_gnssRinex mapProcess ⟨header', body⟩).data.body ∧
      (SimpleFilter.Process_gnssSatTypeValue mapProcess ⟨header, body⟩).raised =
        (SimpleFilter.Process_gnssRinex mapProcess ⟨header', body⟩).raised) := by
  refine ⟨?_, ?_, ?_⟩
  · intro gData
    exact ⟨rfl, rfl, rfl⟩
  · intro gData
    exact ⟨rfl, rfl, rfl⟩
  · intro header header' body
    exact ⟨rfl, rfl⟩

/-- C6: `setFilteredType` erases the previous types.  Whatever the filter held,
after `setFilteredType(t)` the filtered set is exactly `{t}` and after
`setFilteredType(S)` it is exactly `S`; both leave `minLimit` and `maxLimit`
as they were. -/
theorem setFilteredType_erases_previous (self : SimpleFilter) (type : TypeID)
    (typeSet : TypeIDSet) :
    (self.setFilteredType type).getFilteredType = {type} ∧
    (self.setFilteredType type).minLimit = self.minLimit ∧
    (self.setFilteredType type).maxLimit = self.maxLimit ∧
    (self.setFilteredTypeSet typeSet).getFilteredType = typeSet ∧
    (self.setFilteredTypeSet typeSet).minLimit = self.minLimit ∧
    (self.setFilteredTypeSet typeSet).maxLimit = self.maxLimit := by
  refine ⟨?_, rfl, rfl, rfl, rfl, rfl⟩
  simp [SimpleFilter.setFilteredType, SimpleFilter.getFilteredType]

/-- C7: `addFilteredType(t)` turns the filtered set into `old ∪ {t}`: a type is
in the new set exactly when it was in the old one or is `t`; the old set is
contained in the new one and `t` is in it; adding a type that is already there
changes nothing, so adding twice is adding once; the limits are unchanged. -/
theorem addFilteredType_is_union (self : SimpleFilter) (type : TypeID) :
    (self.addFilteredType type).getFilteredType = self.getFilteredType ∪ {type} ∧
    (∀ other : TypeID,
      other ∈ (self.addFilteredType type).getFilteredType ↔
        other ∈ self.getFilteredType ∨ other = type) ∧
    self.getFilteredType ⊆ (self.addFilteredType type).getFilteredType ∧
    type ∈ (self.addFilteredType type).getFilteredType ∧
    (type ∈ self.getFilteredType → self.addFilteredType type = self) ∧
    (self.addFilteredType type).addFilteredType type = self.addFilteredType type ∧
    (self.addFilteredType type).minLimit = self.minLimit ∧
    (self.addFilteredType type).maxLimit = self.maxLimit := by
  refine ⟨?_, ?_, ?_, ?_, ?_, ?_, rfl, rfl⟩
  · simp only [SimpleFilter.addFilteredType, SimpleFilter.getFilteredType]
    rw [Finset.union_comm, ← Finset.insert_eq]
  · intro other
    simp only [SimpleFilter.addFilteredType, SimpleFilter.getFilteredType, Finset.mem_insert]
    exact or_comm
  · simp only [SimpleFilter.addFilteredType, SimpleFilter.getFilteredType]
    exact Finset.subset_insert _ _
  · simp only [SimpleFilter.addFilteredType, SimpleFilter.getFilteredType]
    exact Finset.mem_insert_self _ _
  · intro hmem
    cases self with
    | mk types lo hi =>
      simp only [SimpleFilter.getFilteredType] at hmem
      simp [SimpleFilter.addFilteredType, Finset.insert_eq_of_mem hmem]
  · simp [SimpleFilter.addFilteredType]

/-- C7, at the default filter and the type `C1` it already holds. -/
theorem addFilteredType_is_union_witness :
    TypeID.C1 ∈ SimpleFilter.new.getFilteredType ∧
    SimpleFilter.new.addFilteredType TypeID.C1 = SimpleFilter.new :=
  ⟨by decide, (addFilteredType_is_union SimpleFilter.new TypeID.C1).2.2.2.2.1 (by decide)⟩

/-- C8: `setMinLimit(m)` makes `getMinLimit()` return `m` and leaves `maxLimit`
and the filtered set unchanged; `setMaxLimit(m)` makes `getMaxLimit()` return
`m` and leaves `minLimit` and the filtered set unchanged; the two setters
commute. -/
theorem limit_setters_frame (self : SimpleFilter) (m m' : Double) :
    (self.setMinLimit m).getMinLimit = m ∧
    (self.setMinLimit m).getMaxLimit = self.getMaxLimit ∧
    (self.setMinLimit m).getFilteredType = self.getFilteredType ∧
    (self.setMaxLimit m).getMaxLimit = m ∧
    (self.setMaxLimit m).getMinLimit = self.getMinLimit ∧
    (self.setMaxLimit m).getFilteredType = self.getFilteredType ∧
    (self.setMinLimit m).setMaxLimit m' = (self.setMaxLimit m').setMinLimit m :=
  ⟨rfl, rfl, rfl, rfl, rfl, rfl, rfl⟩

/-! ## Theorems: `SolverUpdNL` -/

/-- The active strategy after a non-empty sequence of setter calls is the one
the last call selects. -/
theorem runAll_snoc_mode {SolverGeneral AmbiguityDatum IndepAmbiguityDatum : Type}
    (solver : SolverUpdNL SolverGeneral AmbiguityDatum IndepAmbiguityDatum)
    (calls : List (DatumCall AmbiguityDatum IndepAmbiguityDatum))
    (last : DatumCall AmbiguityDatum IndepAmbiguityDatum) :
    (DatumCall.runAll (calls ++ [last]) solver).isIndepAmbDatum = last.selectsIndep := by
  unfold DatumCall.runAll
  rw [List.foldl_append]
  cases last <;> rfl

/-- C9: after `setAmbiguityDatum(d)` the solver is in explicit mode
(`isIndepAmbDatum = false`) with `ambiguityDatum = d`; after
`setIndepAmbiguityDatum(d')` it is in independent mode
(`isIndepAmbDatum = true`) with `indepAmbDatum = d'`; each setter leaves the
datum stored for the other strategy, and the base-class part, untouched; and
after any sequence of the two setters the active mode is that of the last
call. -/
theorem datum_mode_is_that_of_last_setter
    {SolverGeneral AmbiguityDatum IndepAmbiguityDatum : Type}
    (solver : SolverUpdNL SolverGeneral AmbiguityDatum IndepAmbiguityDatum)
    (d : AmbiguityDatum) (d' : IndepAmbiguityDatum)
    (calls : List (DatumCall AmbiguityDatum IndepAmbiguityDatum))
    (last : DatumCall AmbiguityDatum IndepAmbiguityDatum) :
    ((solver.setAmbiguityDatum d).isIndepAmbDatum = false ∧
      (solver.setAmbiguityDatum d).ambiguityDatum = d ∧
      (solver.setAmbiguityDatum d).indepAmbDatum = solver.indepAmbDatum ∧
      (solver.setAmbiguityDatum d).base = solver.base) ∧
    ((solver.setIndepAmbiguityDatum d').isIndepAmbDatum = true ∧
      (solver.setIndepAmbiguityDatum d').indepAmbDatum = d' ∧
      (solver.setIndepAmbiguityDatum d').ambiguityDatum = solver.ambiguityDatum ∧
      (solver.setIndepAmbiguityDatum d').base = solver.base) ∧
    (DatumCall.runAll (calls ++ [last]) solver).isIndepAmbDatum = last.selectsIndep :=
  ⟨⟨rfl, rfl, rfl, rfl⟩, ⟨rfl, rfl, rfl, rfl⟩, runAll_snoc_mode solver calls last⟩

/-- C10: the constructor from an `Equation` leaves the solver in explicit mode
(`isIndepAmbDatum = false`), but the constructors from a list of `Equation`s
and from an `EquationSystem` do not initialise `isIndepAmbDatum`: the flag is
whatever its storage held, so with a set bit there the fresh solver is in
independent mode, and two solvers built from the same empty equation list can
differ in mode. -/
theorem list_and_system_constructors_leave_mode_unset :
    (SolverUpdNL.ofEquation (fun _ : Unit => ()) () :
      SolverUpdNL Unit Unit Unit).isIndepAmbDatum = false ∧
    (SolverUpdNL.ofEquationList (fun _ : List Unit => ()) [] true :
      SolverUpdNL Unit Unit Unit).isIndepAmbDatum = true ∧
    (SolverUpdNL.ofEquationSystem (fun _ : Unit => ()) () true :
      SolverUpdNL Unit Unit Unit).isIndepAmbDatum = true ∧
    (SolverUpdNL.ofEquationList (fun _ : List Unit => ()) [] true :
      SolverUpdNL Unit Unit Unit).isIndepAmbDatum ≠
    (SolverUpdNL.ofEquationList (fun _ : List Unit => ()) [] false :
      SolverUpdNL Unit Unit Unit).isIndepAmbDatum := by
  refine ⟨rfl, rfl, rfl, ?_⟩
  simp [SolverUpdNL.ofEquationList]

/-! ## Theorems: `LinearCombinationsMGEX` -/

/-- C14: for every `i`, `j`, `f1`, `f2`, in any arithmetic, `freqOfLC` is
`i·f1 + j·f2`, `wavelengthOfLC` is `C_MPS` over that frequency, and
`firstFactorOfLC` and `secondFactorOfLC` are `i·f1` and `j·f2` over that
frequency; the results are functions of `(i, j, f1, f2)`, and of `C_MPS` for the
wavelength, and of nothing else. -/
theorem LC_helpers_closed_forms {D : Type} [Add D] [Sub D] [Mul D] [Div D] [Neg D]
    [IntCast D] [OfScientific D] (C_MPS : D) (i j : Int) (f1 f2 : D) :
    LinearCombinationsMGEX.freqOfLC i j f1 f2 = (i : D) * f1 + (j : D) * f2 ∧
    LinearCombinationsMGEX.wavelengthOfLC C_MPS i j f1 f2 =
      C_MPS / ((i : D) * f1 + (j : D) * f2) ∧
    LinearCombinationsMGEX.firstFactorOfLC i j f1 f2 =
      (i : D) * f1 / ((i : D) * f1 + (j : D) * f2) ∧
    LinearCombinationsMGEX.secondFactorOfLC i j f1 f2 =
      (j : D) * f2 / ((i : D) * f1 + (j : D) * f2) ∧
    LinearCombinationsMGEX.wavelengthOfLC C_MPS i j f1 f2 =
      C_MPS / LinearCombinationsMGEX.freqOfLC i j f1 f2 ∧
    LinearCombinationsMGEX.firstFactorOfLC i j f1 f2 =
      (i : D) * f1 / LinearCombinationsMGEX.freqOfLC i j f1 f2 ∧
    LinearCombinationsMGEX.secondFactorOfLC i j f1 f2 =
      (j : D) * f2 / LinearCombinationsMGEX.freqOfLC i j f1 f2 := by
  refine ⟨rfl, ?_, ?_, ?_, rfl, rfl, rfl⟩
  · unfold LinearCombinationsMGEX.wavelengthOfLC LinearCombinationsMGEX.freqOfLC
    rfl
  · unfold LinearCombinationsMGEX.firstFactorOfLC LinearCombinationsMGEX.freqOfLC
    rfl
  · unfold LinearCombinationsMGEX.secondFactorOfLC LinearCombinationsMGEX.freqOfLC
    rfl

/-- C15: every GPS-suffixed definition of the table has the header and the body
of the unsuffixed definition; and each Galileo variant (q1, PC, LC, LI, Pdelta,
Ldelta, MWubbena) has the header of its GPS variant, takes its inputs from the
L1/L5 pairing (`C1`, `C5`, `L1`, `L5`) where the GPS variant takes them from the
L1/L2 pairing (`P1`, `P2`, `L1`, `L2`), and has the coefficients written out
below: expressions in `GAMMA_GAL_L1L5`, `L1_FREQ_GAL` and `L5_FREQ_GAL` (for LI
the literals `1.0` and `-1.0`), the same whatever the other constants are. -/
theorem Galileo_and_GPS_variants {D : Type} [Add D] [Sub D] [Mul D] [Div D] [Neg D]
    [IntCast D] [OfScientific D] (k other : Externals D) :
    (LinearCombinationsMGEX.q1CombinationGPS k = LinearCombinationsMGEX.q1Combination k ∧
    LinearCombinationsMGEX.q2CombinationGPS k = LinearCombinationsMGEX.q2Combination k ∧
    LinearCombinationsMGEX.pcCombinationGPS k = LinearCombinationsMGEX.pcCombination k ∧
    LinearCombinationsMGEX.pcPrefitGPS k = LinearCombinationsMGEX.pcPrefit k ∧
    LinearCombinationsMGEX.lcCombinationGPS k = LinearCombinationsMGEX.lcCombination k ∧
    LinearCombinationsMGEX.lcPrefitGPS k = LinearCombinationsMGEX.lcPrefit k ∧
    LinearCombinationsMGEX.liCombinationGPS k = LinearCombinationsMGEX.liCombination k ∧
    LinearCombinationsMGEX.pdeltaCombinationGPS k = LinearCombinationsMGEX.pdeltaCombination k ∧
    LinearCombinationsMGEX.ldeltaCombinationGPS k = LinearCombinationsMGEX.ldeltaCombination k ∧
    LinearCombinationsMGEX.mwubbenaCombinationGPS k = LinearCombinationsMGEX.mwubbenaCombination k) ∧
    ((LinearCombinationsMGEX.q1CombinationGalileo k).header = (LinearCombinationsMGEX.q1CombinationGPS k).header ∧
      (LinearCombinationsMGEX.q1CombinationGPS k).inputs = [TypeID.P1, TypeID.P2] ∧
      (LinearCombinationsMGEX.q1CombinationGalileo k).inputs = [TypeID.C1, TypeID.C5] ∧
      (LinearCombinationsMGEX.q1CombinationGalileo k).body =
        [(TypeID.C1, (k.GAMMA_GAL_L1L5 + (1.0 : D)) / (k.GAMMA_GAL_L1L5 - (1.0 : D))),
         (TypeID.C5, -((2.0 : D) / (k.GAMMA_GAL_L1L5 - (1.0 : D))))] ∧
      LinearCombinationsMGEX.q1CombinationGalileo
          { other with L1_FREQ_GAL := k.L1_FREQ_GAL, L5_FREQ_GAL := k.L5_FREQ_GAL,
                       GAMMA_GAL_L1L5 := k.GAMMA_GAL_L1L5 } =
        LinearCombinationsMGEX.q1CombinationGalileo k) ∧
    ((LinearCombinationsMGEX.pcCombinationGalileo k).header = (LinearCombinationsMGEX.pcCombinationGPS k).header ∧
      (LinearCombinationsMGEX.pcCombinationGPS k).inputs = [TypeID.P1, TypeID.P2] ∧
      (LinearCombinationsMGEX.pcCombinationGalileo k).inputs = [TypeID.C1, TypeID.C5] ∧
      (LinearCombinationsMGEX.pcCombinationGalileo k).body =
        [(TypeID.C1, k.GAMMA_GAL_L1L5 / (k.GAMMA_GAL_L1L5 - ((1 : Int) : D))),
         (TypeID.C5, -((1.0 : D) / (k.GAMMA_GAL_L1L5 - ((1 : Int) : D))))] ∧
      LinearCombinationsMGEX.pcCombinationGalileo
          { other with L1_FREQ_GAL := k.L1_FREQ_GAL, L5_FREQ_GAL := k.L5_FREQ_GAL,
                       GAMMA_GAL_L1L5 := k.GAMMA_GAL_L1L5 } =
        LinearCombinationsMGEX.pcCombinationGalileo k) ∧
    ((LinearCombinationsMGEX.lcCombinationGalileo k).header = (LinearCombinationsMGEX.lcCombinationGPS k).header ∧
      (LinearCombinationsMGEX.lcCombinationGPS k).inputs = [TypeID.L1, TypeID.L2] ∧
      (LinearCombinationsMGEX.lcCombinationGalileo k).inputs = [TypeID.L1, TypeID.L5] ∧
      (LinearCombinationsMGEX.lcCombinationGalileo k).body =
        [(TypeID.L1, k.GAMMA_GAL_L1L5 / (k.GAMMA_GAL_L1L5 - ((1 : Int) : D))),
         (TypeID.L5, -((1.0 : D) / (k.GAMMA_GAL_L1L5 - ((1 : Int) : D))))] ∧
      LinearCombinationsMGEX.lcCombinationGalileo
          { other with L1_FREQ_GAL := k.L1_FREQ_GAL, L5_FREQ_GAL := k.L5_FREQ_GAL,
                       GAMMA_GAL_L1L5 := k.GAMMA_GAL_L1L5 } =
        LinearCombinationsMGEX.lcCombinationGalileo k) ∧
    ((LinearCombinationsMGEX.liCombinationGalileo k).header = (LinearCombinationsMGEX.liCombinationGPS k).header ∧
      (LinearCombinationsMGEX.liCombinationGPS k).inputs = [TypeID.L1, TypeID.L2] ∧
      (LinearCombinationsMGEX.liCombinationGalileo k).inputs = [TypeID.L1, TypeID.L5] ∧
      (LinearCombinationsMGEX.liCombinationGalileo k).body =
        [(TypeID.L1, (1.0 : D)), (TypeID.L5, -(1.0 : D))] ∧
      LinearCombinationsMGEX.liCombinationGalileo
          { other with L1_FREQ_GAL := k.L1_FREQ_GAL, L5_FREQ_GAL := k.L5_FREQ_GAL,
                       GAMMA_GAL_L1L5 := k.GAMMA_GAL_L1L5 } =
        LinearCombinationsMGEX.liCombinationGalileo k) ∧
    ((LinearCombinationsMGEX.pdeltaCombinationGalileo k).header = (LinearCombinationsMGEX.pdeltaCombinationGPS k).header ∧
      (LinearCombinationsMGEX.pdeltaCombinationGPS k).inputs = [TypeID.P1, TypeID.P2] ∧
      (LinearCombinationsMGEX.pdeltaCombinationGalileo k).inputs = [TypeID.C1, TypeID.C5] ∧
      (LinearCombinationsMGEX.pdeltaCombinationGalileo k).body =
        [(TypeID.C1, k.L1_FREQ_GAL / (k.L1_FREQ_GAL + k.L5_FREQ_GAL)),
         (TypeID.C5, k.L5_FREQ_GAL / (k.L1_FREQ_GAL + k.L5_FREQ_GAL))] ∧
      LinearCombinationsMGEX.pdeltaCombinationGalileo
          { other with L1_FREQ_GAL := k.L1_FREQ_GAL, L5_FREQ_GAL := k.L5_FREQ_GAL,
                       GAMMA_GAL_L1L5 := k.GAMMA_GAL_L1L5 } =
        LinearCombinationsMGEX.pdeltaCombinationGalileo k) ∧
    ((LinearCombinationsMGEX.ldeltaCombinationGalileo k).header = (LinearCombinationsMGEX.ldeltaCombinationGPS k).header ∧
      (LinearCombinationsMGEX.ldeltaCombinationGPS k).inputs = [TypeID.L1, TypeID.L2] ∧
      (LinearCombinationsMGEX.ldeltaCombinationGalileo k).inputs = [TypeID.L1, TypeID.L5] ∧
      (LinearCombinationsMGEX.ldeltaCombinationGalileo k).body =
        [(TypeID.L1, k.L1_FREQ_GAL / (k.L1_FREQ_GAL - k.L5_FREQ_GAL)),
         (TypeID.L5, -(k.L5_FREQ_GAL / (k.L1_FREQ_GAL - k.L5_FREQ_GAL)))] ∧
      LinearCombinationsMGEX.ldeltaCombinationGalileo
          { other with L1_FREQ_GAL := k.L1_FREQ_GAL, L5_FREQ_GAL := k.L5_FREQ_GAL,
                       GAMMA_GAL_L1L5 := k.GAMMA_GAL_L1L5 } =
        LinearCombinationsMGEX.ldeltaCombinationGalileo k) ∧
    ((LinearCombinationsMGEX.mwubbenaCombinationGalileo k).header = (LinearCombinationsMGEX.mwubbenaCombinationGPS k).header ∧
      (LinearCombinationsMGEX.mwubbenaCombinationGPS k).inputs = [TypeID.L1, TypeID.L2, TypeID.P1, TypeID.P2] ∧
      (LinearCombinationsMGEX.mwubbenaCombinationGalileo k).inputs = [TypeID.L1, TypeID.L5, TypeID.C1, TypeID.C5] ∧
      (LinearCombinationsMGEX.mwubbenaCombinationGalileo k).body =
        [(TypeID.L1, k.L1_FREQ_GAL / (k.L1_FREQ_GAL - k.L5_FREQ_GAL)),
         (TypeID.L5, -(k.L5_FREQ_GAL / (k.L1_FREQ_GAL - k.L5_FREQ_GAL))),
         (TypeID.C1, -(k.L1_FREQ_GAL / (k.L1_FREQ_GAL + k.L5_FREQ_GAL))),
         (TypeID.C5, -(k.L5_FREQ_GAL / (k.L1_FREQ_GAL + k.L5_FREQ_GAL)))] ∧
      LinearCombinationsMGEX.mwubbenaCombinationGalileo
          { other with L1_FREQ_GAL := k.L1_FREQ_GAL, L5_FREQ_GAL := k.L5_FREQ_GAL,
                       GAMMA_GAL_L1L5 := k.GAMMA_GAL_L1L5 } =
        LinearCombinationsMGEX.mwubbenaCombinationGalileo k) := by
  refine ⟨⟨rfl, rfl, rfl, rfl, rfl, rfl, rfl, rfl, rfl, rfl⟩,
    ⟨rfl, rfl, rfl, rfl, rfl⟩, ⟨rfl, rfl, rfl, rfl, rfl⟩, ⟨rfl, rfl, rfl, rfl, rfl⟩,
    ⟨rfl, rfl, rfl, rfl, rfl⟩, ⟨rfl, rfl, rfl, rfl, rfl⟩, ⟨rfl, rfl, rfl, rfl, rfl⟩,
    ⟨rfl, rfl, rfl, rfl, rfl⟩⟩

/-- The halving count `natLog2` is the binary logarithm `Nat.log2`. -/
theorem natLog2_eq_log2 (n : Nat) : natLog2 n = Nat.log2 n := by
  have aux : ∀ fuel m : Nat, m ≤ fuel → natLog2Aux fuel m = Nat.log2 m := by
    intro fuel
    induction fuel with
    | zero =>
      intro m hm
      have hzero : m = 0 := Nat.le_zero.mp hm
      subst hzero
      simp [natLog2Aux, Nat.log2]
    | succ fuel ih =>
      intro m hm
      unfold natLog2Aux
      rw [Nat.log2]
      by_cases hsmall : m < 2
      · simp [hsmall, Nat.not_le.mpr hsmall]
      · have hbig : m ≥ 2 := Nat.not_lt.mp hsmall
        simp only [hsmall, hbig, if_true, if_false]
        rw [ih (m / 2) (by omega)]
  exact aux n n (Nat.le_refl n)

/-- In exact arithmetic the two factors of a combination sum to one. -/
theorem factors_sum_exact {F : Type} [Field F] (i j : Int) (f1 f2 : F)
    (hfreq : (i : F) * f1 + (j : F) * f2 ≠ 0) :
    LinearCombinationsMGEX.firstFactorOfLC i j f1 f2 +
      LinearCombinationsMGEX.secondFactorOfLC i j f1 f2 = 1 := by
  unfold LinearCombinationsMGEX.firstFactorOfLC LinearCombinationsMGEX.secondFactorOfLC
    LinearCombinationsMGEX.freqOfLC
  rw [← add_div]
  exact div_self hfreq

/-- C19, as stated, fails in binary64: at `i = -1`, `j = 3`, `f1 = 1.0`,
`f2 = 4.0` the frequency is `11.0`, the first factor is the double nearest to
`-1/11`, the second the double nearest to `12/11`, and their sum is
`1 - 2^-53 = 0.9999999999999999`, not `1.0`. -/
theorem factors_sum_rounding_counterexample :
    LinearCombinationsMGEX.freqOfLC (-1) 3 (IEEEDouble.finite false 1) (IEEEDouble.finite false 4) =
      IEEEDouble.finite false 11 ∧
    LinearCombinationsMGEX.firstFactorOfLC (-1) 3 (IEEEDouble.finite false 1)
        (IEEEDouble.finite false 4) =
      IEEEDouble.finite true (3275345183542179 / 36028797018963968) ∧
    LinearCombinationsMGEX.secondFactorOfLC (-1) 3 (IEEEDouble.finite false 1)
        (IEEEDouble.finite false 4) =
      IEEEDouble.finite false (1228254443828317 / 1125899906842624) ∧
    LinearCombinationsMGEX.firstFactorOfLC (-1) 3 (IEEEDouble.finite false 1)
        (IEEEDouble.finite false 4) +
      LinearCombinationsMGEX.secondFactorOfLC (-1) 3 (IEEEDouble.finite false 1)
        (IEEEDouble.finite false 4) =
      IEEEDouble.finite false (9007199254740991 / 9007199254740992) ∧
    LinearCombinationsMGEX.firstFactorOfLC (-1) 3 (IEEEDouble.finite false 1)
        (IEEEDouble.finite false 4) +
      LinearCombinationsMGEX.secondFactorOfLC (-1) 3 (IEEEDouble.finite false 1)
        (IEEEDouble.finite false 4) ≠
      IEEEDouble.finite false 1 := by
  refine ⟨by decide!, by decide!, by decide!, by decide!, by decide!⟩

/-- C19, amended: in exact arithmetic, for every `i`, `j`, `f1`, `f2` with
`i·f1 + j·f2 ≠ 0`, `firstFactorOfLC + secondFactorOfLC = 1`, so the two
coefficients of `wlCombination`, `wl2Combination` and `wl4Combination` sum to 1
whenever the frequency of the combination is not zero; in binary64, for these
three combinations at the GPS frequencies 1575.42 MHz and 1227.60 MHz as default
`f1` and `f2`, the sum of the two coefficients is exactly `1.0`. -/
theorem factors_sum_to_one :
    (∀ (F : Type) [Field F] (i j : Int) (f1 f2 : F), (i : F) * f1 + (j : F) * f2 ≠ 0 →
      LinearCombinationsMGEX.firstFactorOfLC i j f1 f2 +
        LinearCombinationsMGEX.secondFactorOfLC i j f1 f2 = 1) ∧
    (∀ (F : Type) [Field F] (k : Externals F),
      (((1 : Int) : F) * k.f1Default + ((-1 : Int) : F) * k.f2Default ≠ 0 →
        ∃ c1 c2 : F, (LinearCombinationsMGEX.wlCombination k).body =
          [(TypeID.L1, c1), (TypeID.L2, c2)] ∧ c1 + c2 = 1) ∧
      (((-2 : Int) : F) * k.f1Default + ((3 : Int) : F) * k.f2Default ≠ 0 →
        ∃ c1 c2 : F, (LinearCombinationsMGEX.wl2Combination k).body =
          [(TypeID.L1, c1), (TypeID.L2, c2)] ∧ c1 + c2 = 1) ∧
      (((4 : Int) : F) * k.f1Default + ((-5 : Int) : F) * k.f2Default ≠ 0 →
        ∃ c1 c2 : F, (LinearCombinationsMGEX.wl4Combination k).body =
          [(TypeID.L1, c1), (TypeID.L2, c2)] ∧ c1 + c2 = 1)) ∧
    (∀ k : Externals IEEEDouble,
      k.f1Default = (1575.42e6 : IEEEDouble) → k.f2Default = (1227.60e6 : IEEEDouble) →
      (∃ c1 c2 : IEEEDouble, (LinearCombinationsMGEX.wlCombination k).body =
          [(TypeID.L1, c1), (TypeID.L2, c2)] ∧ c1 + c2 = IEEEDouble.finite false 1) ∧
      (∃ c1 c2 : IEEEDouble, (LinearCombinationsMGEX.wl2Combination k).body =
          [(TypeID.L1, c1), (TypeID.L2, c2)] ∧ c1 + c2 = IEEEDouble.finite false 1) ∧
      (∃ c1 c2 : IEEEDouble, (LinearCombinationsMGEX.wl4Combination k).body =
          [(TypeID.L1, c1), (TypeID.L2, c2)] ∧ c1 + c2 = IEEEDouble.finite false 1)) := by
  refine ⟨?_, ?_, ?_⟩
  · intro F _ i j f1 f2 hfreq
    exact factors_sum_exact i j f1 f2 hfreq
  · intro F _ k
    refine ⟨?_, ?_, ?_⟩
    · intro hfreq
      exact ⟨_, _, rfl, factors_sum_exact 1 (-1) k.f1Default k.f2Default hfreq⟩
    · intro hfreq
      exact ⟨_, _, rfl, factors_sum_exact (-2) 3 k.f1Default k.f2Default hfreq⟩
    · intro hfreq
      exact ⟨_, _, rfl, factors_sum_exact 4 (-5) k.f1Default k.f2Default hfreq⟩
  · intro k h1 h2
    refine ⟨⟨_, _, rfl, ?_⟩, ⟨_, _, rfl, ?_⟩, ⟨_, _, rfl, ?_⟩⟩
    · rw [h1, h2]
      decide!
    · rw [h1, h2]
      decide!
    · rw [h1, h2]
      decide!

/-- C19, amended, at the sample externals: in `ℚ` the factors of `(1, -1)` at
the GPS frequencies sum to 1, and in binary64 the coefficients of the three WL
combinations sum to `1.0`. -/
theorem factors_sum_to_one_witness :
    (((1 : Int) : ℚ) * (sampleExternals : Externals ℚ).f1Default +
        ((-1 : Int) : ℚ) * (sampleExternals : Externals ℚ).f2Default ≠ 0 ∧
      LinearCombinationsMGEX.firstFactorOfLC 1 (-1) (sampleExternals : Externals ℚ).f1Default
          (sampleExternals : Externals ℚ).f2Default +
        LinearCombinationsMGEX.secondFactorOfLC 1 (-1) (sampleExternals : Externals ℚ).f1Default
          (sampleExternals : Externals ℚ).f2Default = 1) ∧
    ((sampleExternals : Externals IEEEDouble).f1Default = (1575.42e6 : IEEEDouble) ∧
      (sampleExternals : Externals IEEEDouble).f2Default = (1227.60e6 : IEEEDouble) ∧
      ∃ c1 c2 : IEEEDouble,
        (LinearCombinationsMGEX.wlCombination (sampleExternals : Externals IEEEDouble)).body =
          [(TypeID.L1, c1), (TypeID.L2, c2)] ∧ c1 + c2 = IEEEDouble.finite false 1) :=
  ⟨⟨by decide!, factors_sum_to_one.1 ℚ 1 (-1) _ _ (by decide!)⟩,
   ⟨rfl, rfl, (factors_sum_to_one.2.2 sampleExternals rfl rfl).1⟩⟩

/-- C17: the code does not compute what its comment states.  The comment gives
`a = GAMMA_GPS/(GAMMA_GPS-1)` and `b = 1/(GAMMA_GPS-1)`; the code divides by the
literal `0.646944444`.  With `GAMMA_GPS = 1.646944444`, in binary64,
`GAMMA_GPS - 1.0` is not the double of the literal `0.646944444`, the coefficient
`a = GAMMA_GPS/0.646944444` is not the double `GAMMA_GPS/(GAMMA_GPS - 1.0)`, and
`b = 1.0/0.646944444` is not the double `1.0/(GAMMA_GPS - 1.0)`. -/
theorem a_b_literal_denominator_counterexample :
    (sampleExternals : Externals IEEEDouble).GAMMA_GPS - (1.0 : IEEEDouble) =
      IEEEDouble.finite false (2913578756927813 / 4503599627370496) ∧
    (0.646944444 : IEEEDouble) =
      IEEEDouble.finite false (5827157513855625 / 9007199254740992) ∧
    LinearCombinationsMGEX.a (sampleExternals : Externals IEEEDouble) =
      IEEEDouble.finite false (2866234671727975 / 1125899906842624) ∧
    (sampleExternals : Externals IEEEDouble).GAMMA_GPS /
        ((sampleExternals : Externals IEEEDouble).GAMMA_GPS - (1.0 : IEEEDouble)) =
      IEEEDouble.finite false (5732469343455949 / 2251799813685248) ∧
    LinearCombinationsMGEX.a (sampleExternals : Externals IEEEDouble) ≠
      (sampleExternals : Externals IEEEDouble).GAMMA_GPS /
        ((sampleExternals : Externals IEEEDouble).GAMMA_GPS - (1.0 : IEEEDouble)) ∧
    LinearCombinationsMGEX.b (sampleExternals : Externals IEEEDouble) =
      IEEEDouble.finite false (1740334764885351 / 1125899906842624) ∧
    (1.0 : IEEEDouble) /
        ((sampleExternals : Externals IEEEDouble).GAMMA_GPS - (1.0 : IEEEDouble)) =
      IEEEDouble.finite false (6961339059541403 / 4503599627370496) ∧
    LinearCombinationsMGEX.b (sampleExternals : Externals IEEEDouble) ≠
      (1.0 : IEEEDouble) /
        ((sampleExternals : Externals IEEEDouble).GAMMA_GPS - (1.0 : IEEEDouble)) := by
  refine ⟨by decide!, by decide!, by decide!, by decide!, by decide!, by decide!, by decide!,
    by decide!⟩

/-- What the constructor computes for `a` and `b` and where they go: the
coefficients of `pcCombination`, `pcCombinationGPS`, `pcCombWithC1`,
`lcCombination` and `lcCombinationGPS` are `+a` and `-b` with
`a = GAMMA_GPS/0.646944444` and `b = 1.0/0.646944444`.  In exact arithmetic
`a - b = 1` holds exactly when `GAMMA_GPS = 1.646944444`, and only then do `a`
and `b` have the values `GAMMA_GPS/(GAMMA_GPS - 1)` and `1/(GAMMA_GPS - 1)` of
the comment; in binary64 with `GAMMA_GPS = 1.646944444` the difference `a - b`
is `1.0`. -/
theorem a_b_as_computed {D : Type} [Add D] [Sub D] [Mul D] [Div D] [Neg D]
    [IntCast D] [OfScientific D] (k : Externals D) :
    (LinearCombinationsMGEX.a k = k.GAMMA_GPS / (0.646944444 : D) ∧
      LinearCombinationsMGEX.b k = (1.0 : D) / (0.646944444 : D) ∧
      (LinearCombinationsMGEX.pcCombination k).body =
        [(TypeID.P1, LinearCombinationsMGEX.a k), (TypeID.P2, -LinearCombinationsMGEX.b k)] ∧
      (LinearCombinationsMGEX.pcCombinationGPS k).body =
        [(TypeID.P1, LinearCombinationsMGEX.a k), (TypeID.P2, -LinearCombinationsMGEX.b k)] ∧
      (LinearCombinationsMGEX.pcCombWithC1 k).body =
        [(TypeID.C1, LinearCombinationsMGEX.a k), (TypeID.P2, -LinearCombinationsMGEX.b k)] ∧
      (LinearCombinationsMGEX.lcCombination k).body =
        [(TypeID.L1, LinearCombinationsMGEX.a k), (TypeID.L2, -LinearCombinationsMGEX.b k)] ∧
      (LinearCombinationsMGEX.lcCombinationGPS k).body =
        [(TypeID.L1, LinearCombinationsMGEX.a k), (TypeID.L2, -LinearCombinationsMGEX.b k)]) ∧
    (∀ q : Externals ℚ,
      (LinearCombinationsMGEX.a q - LinearCombinationsMGEX.b q = 1 ↔
        q.GAMMA_GPS = 1.646944444) ∧
      (q.GAMMA_GPS = 1.646944444 →
        LinearCombinationsMGEX.a q = q.GAMMA_GPS / (q.GAMMA_GPS - 1) ∧
        LinearCombinationsMGEX.b q = 1 / (q.GAMMA_GPS - 1))) ∧
    (∀ d : Externals IEEEDouble, d.GAMMA_GPS = (1.646944444 : IEEEDouble) →
      LinearCombinationsMGEX.a d - LinearCombinationsMGEX.b d = IEEEDouble.finite false 1) := by
  refine ⟨⟨rfl, rfl, rfl, rfl, rfl, rfl, rfl⟩, ?_, ?_⟩
  · intro q
    constructor
    · unfold LinearCombinationsMGEX.a LinearCombinationsMGEX.b
      constructor
      · intro h
        have h' : (q.GAMMA_GPS - 1) / (0.646944444 : ℚ) = 1 := by
          rw [sub_div]
          norm_num at h ⊢
          linarith
        have hne : (0.646944444 : ℚ) ≠ 0 := by norm_num
        have h'' := (div_eq_one_iff_eq hne).mp h'
        norm_num at h'' ⊢
        linarith
      · intro h
        rw [h]
        norm_num
    · intro h
      unfold LinearCombinationsMGEX.a LinearCombinationsMGEX.b
      rw [h]
      constructor <;> norm_num
  · intro d h
    unfold LinearCombinationsMGEX.a LinearCombinationsMGEX.b
    rw [h]
    decide!

/-- C18: the `windUp` coefficient of `lcPrefit`, `lcPrefitGPS` and `lcPrefitC`
is `-0.1069533781421467/TWO_PI`, and the literal is the LC wavelength to the 16
digits written: with `C_MPS = 299792458`, the GPS frequencies 1575.42 MHz and
1227.60 MHz, and these as the default `f1` and `f2`, the exact value of
`wavelengthOfLC(1,1) = C_MPS/(L1_FREQ_GPS + L2_FREQ_GPS)` is within half a unit
of the sixteenth decimal of the literal, and so is the binary64 value of
`wavelengthOfLC(1,1)` (which is not the double of the literal). -/
theorem lc_windUp_literal_is_wavelength {D : Type} [Add D] [Sub D] [Mul D] [Div D] [Neg D]
    [IntCast D] [OfScientific D] (k : Externals D) :
    ((LinearCombinationsMGEX.lcPrefit k).coefficient TypeID.windUp =
        some ((-(0.1069533781421467 : D)) / k.TWO_PI) ∧
      (LinearCombinationsMGEX.lcPrefitGPS k).coefficient TypeID.windUp =
        some ((-(0.1069533781421467 : D)) / k.TWO_PI) ∧
      (LinearCombinationsMGEX.lcPrefitC k).coefficient TypeID.windUp =
        some ((-(0.1069533781421467 : D)) / k.TWO_PI)) ∧
    (∀ q : Externals ℚ, q.C_MPS = 299792458 → q.L1_FREQ_GPS = 1575420000 →
      q.L2_FREQ_GPS = 1227600000 → q.f1Default = q.L1_FREQ_GPS → q.f2Default = q.L2_FREQ_GPS →
      LinearCombinationsMGEX.wavelengthOfLC q.C_MPS 1 1 q.f1Default q.f2Default =
        q.C_MPS / (q.L1_FREQ_GPS + q.L2_FREQ_GPS) ∧
      |LinearCombinationsMGEX.wavelengthOfLC q.C_MPS 1 1 q.f1Default q.f2Default -
          0.1069533781421467| < 1 / (2 * 10 ^ 16)) ∧
    (∀ d : Externals IEEEDouble, d.C_MPS = (2.99792458e8 : IEEEDouble) →
      d.L1_FREQ_GPS = (1575.42e6 : IEEEDouble) → d.L2_FREQ_GPS = (1227.60e6 : IEEEDouble) →
      d.f1Default = d.L1_FREQ_GPS → d.f2Default = d.L2_FREQ_GPS →
      LinearCombinationsMGEX.wavelengthOfLC d.C_MPS 1 1 d.f1Default d.f2Default =
        d.C_MPS / (d.L1_FREQ_GPS + d.L2_FREQ_GPS) ∧
      (∃ v : ℚ,
        (LinearCombinationsMGEX.wavelengthOfLC d.C_MPS 1 1 d.f1Default d.f2Default).value? =
          some v ∧
        |v - 0.1069533781421467| < 1 / (2 * 10 ^ 16)) ∧
      LinearCombinationsMGEX.wavelengthOfLC d.C_MPS 1 1 d.f1Default d.f2Default ≠
        (0.1069533781421467 : IEEEDouble)) := by
  refine ⟨⟨?_, ?_, ?_⟩, ?_, ?_⟩
  · simp [LinearCombinationsMGEX.lcPrefit, assignAll, assign,
      gnssLinearCombination.coefficient]
  · simp [LinearCombinationsMGEX.lcPrefitGPS, assignAll, assign,
      gnssLinearCombination.coefficient]
  · simp [LinearCombinationsMGEX.lcPrefitC, assignAll, assign,
      gnssLinearCombination.coefficient]
  · intro q hC h1 h2 hd1 hd2
    unfold LinearCombinationsMGEX.wavelengthOfLC LinearCombinationsMGEX.freqOfLC
    rw [hd1, hd2, hC, h1, h2]
    constructor
    · norm_num
    · decide!
  · intro d hC h1 h2 hd1 hd2
    rw [hd1, hd2, hC, h1, h2]
    refine ⟨by decide!, ⟨7706803103151801 / 72057594037927936, by decide!, by decide!⟩,
      by decide!⟩

/-- C18, at the sample externals: the exact LC wavelength in `ℚ`. -/
theorem lc_windUp_literal_is_wavelength_witness :
    ((sampleExternals : Externals ℚ).C_MPS = 299792458 ∧
      (sampleExternals : Externals ℚ).L1_FREQ_GPS = 1575420000 ∧
      (sampleExternals : Externals ℚ).L2_FREQ_GPS = 1227600000) ∧
    |LinearCombinationsMGEX.wavelengthOfLC (sampleExternals : Externals ℚ).C_MPS 1 1
        (sampleExternals : Externals ℚ).f1Default (sampleExternals : Externals ℚ).f2Default -
      0.1069533781421467| < 1 / (2 * 10 ^ 16) :=
  ⟨⟨by decide!, by decide!, by decide!⟩,
   ((lc_windUp_literal_is_wavelength (sampleExternals : Externals ℚ)).2.1 sampleExternals
      (by decide!) (by decide!) (by decide!) rfl rfl).2⟩

/-! ## Theorems: ambiguity fixing -/

/-- After `m[key] = value` the map holds `value` for `key`, and for every other
key exactly what it held before. -/
theorem mem_mapSet {K V : Type} [DecidableEq K] (m : List (K × V)) (key : K) (value : V)
    (k : K) (v : V) :
    (k, v) ∈ mapSet m key value ↔ (k = key ∧ v = value) ∨ (k ≠ key ∧ (k, v) ∈ m) := by
  unfold mapSet
  by_cases hany : m.any (fun entry => decide (entry.1 = key)) = true
  · rw [if_pos hany, List.mem_map]
    obtain ⟨witness, hwmem, hwkey⟩ := List.any_eq_true.mp hany
    have hwkey' : witness.1 = key := of_decide_eq_true hwkey
    constructor
    · rintro ⟨entry, hmem, heq⟩
      by_cases hkey : entry.1 = key
      · rw [if_pos hkey] at heq
        left
        exact ⟨(Prod.mk.inj heq).1.symm, (Prod.mk.inj heq).2.symm⟩
      · rw [if_neg hkey] at heq
        right
        subst heq
        exact ⟨hkey, hmem⟩
    · rintro (⟨hk, hv⟩ | ⟨hk, hmem⟩)
      · refine ⟨witness, hwmem, ?_⟩
        rw [if_pos hwkey', hk, hv]
      · refine ⟨(k, v), hmem, ?_⟩
        rw [if_neg hk]
  · rw [if_neg hany, List.mem_append, List.mem_singleton]
    have habsent : ∀ entry ∈ m, entry.1 ≠ key := by
      intro entry hmem hkey
      exact hany (List.any_eq_true.mpr ⟨entry, hmem, decide_eq_true hkey⟩)
    constructor
    · rintro (hmem | heq)
      · right
        exact ⟨habsent (k, v) hmem, hmem⟩
      · left
        exact ⟨(Prod.mk.inj heq).1, (Prod.mk.inj heq).2⟩
    · rintro (⟨hk, hv⟩ | ⟨_, hmem⟩)
      · right
        rw [hk, hv]
      · left
        exact hmem

/-- An entry that `fixingDataMap[sat]` finds or makes is in the map afterwards,
and the map afterwards holds the old entries and at most the new one. -/
theorem mem_access (map : fixingDataMap) (sat : SatID) (s : SatID) (fd : fixingData) :
    (s, fd) ∈ (map.access sat).1 ↔
      (s, fd) ∈ map ∨ (mapGet map sat = none ∧ s = sat ∧ fd = fixingData.new) := by
  unfold fixingDataMap.access
  cases hget : mapGet map sat with
  | none =>
    simp only [List.mem_append, List.mem_singleton, Prod.mk.injEq, true_and]
  | some entry =>
    simp

/-- The entry that `fixingDataMap[sat]` hands back is in the map afterwards. -/
theorem access_entry_mem (map : fixingDataMap) (sat : SatID) :
    (sat, (map.access sat).2) ∈ (map.access sat).1 := by
  unfold fixingDataMap.access
  cases hget : mapGet map sat with
  | none => simp
  | some entry =>
    simp only
    unfold mapGet at hget
    cases hfind : List.find? (fun e => decide (e.1 = sat)) map with
    | none => simp [hfind] at hget
    | some found =>
      rw [hfind] at hget
      have hp := List.find?_some hfind
      have hkey : found.1 = sat := by simpa using hp
      have hmem : found ∈ map := List.mem_of_find?_eq_some hfind
      have hval : found.2 = entry := by simpa using hget
      have : found = (sat, entry) := Prod.ext hkey hval
      rw [← this]
      exact hmem

/-- C16: the default constructor of `fixingData` gives `floatAmbNumb = 0`,
`fixedAmbNumb = 0` and `fixingRate = 0.0`, and this is the entry that the access
`fixingDataMap[sat]` makes for a satellite the map has no entry for: the entry
handed back carries the three zeros and is in the map afterwards. -/
theorem fixingData_starts_at_zero :
    fixingData.new.floatAmbNumb = 0 ∧ fixingData.new.fixedAmbNumb = 0 ∧
    fixingData.new.fixingRate = Double.fin 0 ∧
    (∀ (map : fixingDataMap) (sat : SatID), mapGet map sat = none →
      (map.access sat).2 = fixingData.new ∧
      (map.access sat).1 = map ++ [(sat, fixingData.new)] ∧
      (sat, fixingData.new) ∈ (map.access sat).1) := by
  refine ⟨rfl, rfl, rfl, ?_⟩
  intro map sat hnone
  unfold fixingDataMap.access
  rw [hnone]
  simp

/-- C16, at the empty map of a fresh solver and satellite `G05`. -/
theorem fixingData_starts_at_zero_witness :
    mapGet ([] : fixingDataMap) ⟨1, 5⟩ = none ∧
    (fixingDataMap.access [] ⟨1, 5⟩).1 = [(⟨1, 5⟩, ⟨0, 0, Double.fin 0⟩)] :=
  ⟨rfl, (fixingData_starts_at_zero.2.2.2 [] ⟨1, 5⟩ rfl).2.1⟩

/-- The fixing statistics after one float ambiguity: the entry of its satellite
is the accessed entry with the float count raised by one, the fixed count raised
by one on a successful fix, and the rate recomputed. -/
theorem fixOne_fixingDataMap {Variable : Type} [DecidableEq Variable] (tol varThresh : Double)
    (state : FixingState Variable) (amb : FloatAmbiguity Variable) :
    (fixOne tol varThresh state amb).fixingDataMap =
      mapSet (state.fixingDataMap.access amb.sat).1 amb.sat
        { floatAmbNumb := (state.fixingDataMap.access amb.sat).2.floatAmbNumb + 1,
          fixedAmbNumb :=
            if fixTest tol varThresh amb.estimate amb.variance then
              (state.fixingDataMap.access amb.sat).2.fixedAmbNumb + 1
            else (state.fixingDataMap.access amb.sat).2.fixedAmbNumb,
          fixingRate := Double.fin
            (((if fixTest tol varThresh amb.estimate amb.variance then
                (state.fixingDataMap.access amb.sat).2.fixedAmbNumb + 1
              else (state.fixingDataMap.access amb.sat).2.fixedAmbNumb : Int) : ℚ) /
              (((state.fixingDataMap.access amb.sat).2.floatAmbNumb + 1 : Int) : ℚ)) } :=
  rfl

/-- The entry that `fixingDataMap[sat]` hands back has counts `0 ≤ fixed ≤ float`
when the entries of the map are consistent. -/
theorem access_entry_counts (map : fixingDataMap) (sat : SatID)
    (hmap : ∀ entry ∈ map, entry.2.consistent) :
    0 ≤ (map.access sat).2.fixedAmbNumb ∧
      (map.access sat).2.fixedAmbNumb ≤ (map.access sat).2.floatAmbNumb := by
  have hmem := access_entry_mem map sat
  rcases (mem_access map sat sat (map.access sat).2).mp hmem with hold | ⟨_, _, hnew⟩
  · have hc := hmap _ hold
    exact ⟨hc.2.1, hc.2.2.1⟩
  · rw [hnew]
    exact ⟨le_refl _, le_refl _⟩

/-- One float ambiguity keeps every entry of the fixing statistics consistent. -/
theorem fixOne_consistent {Variable : Type} [DecidableEq Variable] (tol varThresh : Double)
    (state : FixingState Variable) (amb : FloatAmbiguity Variable)
    (hstate : ∀ entry ∈ state.fixingDataMap, entry.2.consistent) :
    ∀ entry ∈ (fixOne tol varThresh state amb).fixingDataMap, entry.2.consistent := by
  rintro ⟨s, fd⟩ hmem
  rw [fixOne_fixingDataMap, mem_mapSet] at hmem
  obtain ⟨hfixed0, hfixedle⟩ := access_entry_counts state.fixingDataMap amb.sat hstate
  rcases hmem with ⟨_, hfd⟩ | ⟨hne, hold⟩
  · subst hfd
    refine ⟨?_, ?_, ?_, rfl⟩
    · show 1 ≤ (state.fixingDataMap.access amb.sat).2.floatAmbNumb + 1
      omega
    · show 0 ≤ (if fixTest tol varThresh amb.estimate amb.variance then _ else _ : Int)
      split <;> omega
    · show (if fixTest tol varThresh amb.estimate amb.variance then _ else _ : Int) ≤
        (state.fixingDataMap.access amb.sat).2.floatAmbNumb + 1
      split <;> omega
  · rcases (mem_access state.fixingDataMap amb.sat s fd).mp hold with hin | ⟨_, hs, _⟩
    · exact hstate _ hin
    · exact absurd hs hne

/-- The fixing pass over a list of float ambiguities keeps the statistics
consistent. -/
theorem fixAll_consistent {Variable : Type} [DecidableEq Variable] (tol varThresh : Double)
    (ambs : List (FloatAmbiguity Variable)) (state : FixingState Variable)
    (hstate : ∀ entry ∈ state.fixingDataMap, entry.2.consistent) :
    ∀ entry ∈ (fixAll tol varThresh state ambs).fixingDataMap, entry.2.consistent := by
  induction ambs generalizing state with
  | nil => exact hstate
  | cons amb rest ih =>
    unfold fixAll
    exact ih _ (fixOne_consistent tol varThresh state amb hstate)

/-- A run of epochs keeps the statistics consistent. -/
theorem runEpochs_consistent {Variable : Type} [DecidableEq Variable] (tol varThresh : Double)
    (epochs : List (List (FloatAmbiguity Variable))) (state : FixingState Variable)
    (hstate : ∀ entry ∈ state.fixingDataMap, entry.2.consistent) :
    ∀ entry ∈ (runEpochs tol varThresh state epochs).fixingDataMap, entry.2.consistent := by
  induction epochs generalizing state with
  | nil => exact hstate
  | cons ambs rest ih =>
    unfold runEpochs
    apply ih
    unfold AmbiguityConstr
    exact fixAll_consistent tol varThresh ambs _ hstate

/-- C12: after every epoch of a run that starts from a fresh solver, each
satellite's `fixingData` has `fixingRate = fixedAmbNumb / floatAmbNumb` with
`0 ≤ fixedAmbNumb ≤ floatAmbNumb` and `1 ≤ floatAmbNumb`; one float ambiguity
raises the float count of its satellite by one and the fixed count by one
exactly on a successful fix, and leaves the entries of the other satellites as
they were; three float ambiguities of one satellite of which two are fixed give
the counts 3 and 2 and the rate 2/3. -/
theorem fixingRate_is_fixed_over_float {Variable : Type} [DecidableEq Variable]
    (tol varThresh : Double) :
    (∀ (epochs : List (List (FloatAmbiguity Variable))) (sat : SatID) (fd : fixingData),
      (sat, fd) ∈ (runEpochs tol varThresh FixingState.new epochs).fixingDataMap →
        fd.fixingRate = Double.fin ((fd.fixedAmbNumb : ℚ) / (fd.floatAmbNumb : ℚ)) ∧
        0 ≤ fd.fixedAmbNumb ∧ fd.fixedAmbNumb ≤ fd.floatAmbNumb ∧ 1 ≤ fd.floatAmbNumb) ∧
    (∀ (state : FixingState Variable) (amb : FloatAmbiguity Variable) (sat : SatID)
        (fd : fixingData),
      (sat, fd) ∈ (fixOne tol varThresh state amb).fixingDataMap ↔
        (sat = amb.sat ∧
          fd.floatAmbNumb = (state.fixingDataMap.access amb.sat).2.floatAmbNumb + 1 ∧
          fd.fixedAmbNumb = (state.fixingDataMap.access amb.sat).2.fixedAmbNumb +
            (if fixTest tol varThresh amb.estimate amb.variance then 1 else 0) ∧
          fd.fixingRate = Double.fin ((fd.fixedAmbNumb : ℚ) / (fd.floatAmbNumb : ℚ))) ∨
        (sat ≠ amb.sat ∧ (sat, fd) ∈ state.fixingDataMap)) ∧
    (AmbiguityConstr (Double.fin (1 / 100)) (Double.fin (1 / 100)) sampleAmbiguities
        FixingState.new).fixingDataMap =
      [(⟨1, 5⟩, { floatAmbNumb := 3, fixedAmbNumb := 2, fixingRate := Double.fin (2 / 3) })] := by
  refine ⟨?_, ?_, by decide!⟩
  · intro epochs sat fd hmem
    have hc := runEpochs_consistent tol varThresh epochs FixingState.new
      (by intro entry hentry; cases hentry) (sat, fd) hmem
    exact ⟨hc.2.2.2, hc.2.1, hc.2.2.1, hc.1⟩
  · intro state amb sat fd
    rw [fixOne_fixingDataMap, mem_mapSet]
    constructor
    · rintro (⟨hs, hfd⟩ | ⟨hne, hold⟩)
      · left
        subst hfd
        refine ⟨hs, rfl, ?_, rfl⟩
        show (if fixTest tol varThresh amb.estimate amb.variance then _ else _ : Int) = _
        split <;> simp
      · right
        rcases (mem_access state.fixingDataMap amb.sat sat fd).mp hold with hin | ⟨_, hs, _⟩
        · exact ⟨hne, hin⟩
        · exact absurd hs hne
    · rintro (⟨hs, hfloat, hfixed, hrate⟩ | ⟨hne, hold⟩)
      · left
        refine ⟨hs, ?_⟩
        cases fd with
        | mk fl fx rt =>
          simp only at hfloat hfixed hrate
          subst hfloat
          have hfx : fx = (if fixTest tol varThresh amb.estimate amb.variance then
              (state.fixingDataMap.access amb.sat).2.fixedAmbNumb + 1
            else (state.fixingDataMap.access amb.sat).2.fixedAmbNumb) := by
            rw [hfixed]
            split <;> simp
          subst hfx
          rw [hrate]
      · right
        exact ⟨hne, (mem_access state.fixingDataMap amb.sat sat fd).mpr (Or.inl hold)⟩

/-- C12, at a run of one epoch with the three sample ambiguities. -/
theorem fixingRate_is_fixed_over_float_witness :
    ((⟨1, 5⟩, { floatAmbNumb := 3, fixedAmbNumb := 2, fixingRate := Double.fin (2 / 3) }) ∈
        (runEpochs (Double.fin (1 / 100)) (Double.fin (1 / 100)) FixingState.new
          [sampleAmbiguities]).fixingDataMap) ∧
    (Double.fin (2 / 3) = Double.fin (((2 : Int) : ℚ) / ((3 : Int) : ℚ)) ∧
      (0 : Int) ≤ 2 ∧ (2 : Int) ≤ 3 ∧ (1 : Int) ≤ 3) :=
  ⟨by decide!,
   (@fixingRate_is_fixed_over_float Nat _ (Double.fin (1 / 100))
      (Double.fin (1 / 100))).1 [sampleAmbiguities] ⟨1, 5⟩
      { floatAmbNumb := 3, fixedAmbNumb := 2, fixingRate := Double.fin (2 / 3) } (by decide!)⟩

/-- What `ambFixedMap` holds after one float ambiguity. -/
theorem fixOne_ambFixedMap {Variable : Type} [DecidableEq Variable] (tol varThresh : Double)
    (state : FixingState Variable) (amb : FloatAmbiguity Variable) :
    (fixOne tol varThresh state amb).ambFixedMap =
      if fixTest tol varThresh amb.estimate amb.variance then
        mapSet state.ambFixedMap amb.var (fixedValue amb.estimate)
      else state.ambFixedMap :=
  rfl

/-- What `ambFixedMap` holds after the fixing pass over ambiguities of distinct
variables: the entries it held for variables no fixed ambiguity of the pass has,
and `round(estimate)` for the variable of every ambiguity that passed the fix
test. -/
theorem fixAll_ambFixedMap {Variable : Type} [DecidableEq Variable] (tol varThresh : Double)
    (ambs : List (FloatAmbiguity Variable)) (state : FixingState Variable)
    (hdistinct : (ambs.map (fun amb => amb.var)).Nodup) (v : Variable) (y : Double) :
    (v, y) ∈ (fixAll tol varThresh state ambs).ambFixedMap ↔
      ((v, y) ∈ state.ambFixedMap ∧
        ∀ amb ∈ ambs, fixTest tol varThresh amb.estimate amb.variance = true → amb.var ≠ v) ∨
      (∃ amb ∈ ambs, amb.var = v ∧ fixTest tol varThresh amb.estimate amb.variance = true ∧
        y = fixedValue amb.estimate) := by
  induction ambs generalizing state with
  | nil =>
    unfold fixAll
    simp
  | cons first rest ih =>
    rw [List.map_cons, List.nodup_cons] at hdistinct
    obtain ⟨hfresh, hrest⟩ := hdistinct
    have hfresh' : ∀ amb ∈ rest, amb.var ≠ first.var := by
      intro amb hamb heq
      exact hfresh (List.mem_map.mpr ⟨amb, hamb, heq⟩)
    unfold fixAll
    rw [ih _ hrest, fixOne_ambFixedMap]
    by_cases hpass : fixTest tol varThresh first.estimate first.variance = true
    · rw [if_pos hpass, mem_mapSet]
      constructor
      · rintro (⟨hin | hin, hothers⟩ | ⟨amb, hamb, hvar, hok, hy⟩)
        · right
          exact ⟨first, List.mem_cons_self _ _, hin.1.symm, hpass, hin.2⟩
        · left
          refine ⟨hin.2, ?_⟩
          intro amb hamb hok
          rcases List.mem_cons.mp hamb with rfl | hamb'
          · exact fun h => hin.1 h.symm
          · exact hothers amb hamb' hok
        · right
          exact ⟨amb, List.mem_cons_of_mem _ hamb, hvar, hok, hy⟩
      · rintro (⟨hin, hothers⟩ | ⟨amb, hamb, hvar, hok, hy⟩)
        · left
          refine ⟨Or.inr ⟨?_, hin⟩, ?_⟩
          · exact fun h => hothers first (List.mem_cons_self _ _) hpass h.symm
          · intro amb hamb hok
            exact hothers amb (List.mem_cons_of_mem _ hamb) hok
        · rcases List.mem_cons.mp hamb with rfl | hamb'
          · left
            refine ⟨Or.inl ⟨hvar.symm, hy⟩, ?_⟩
            intro other hother _ hov
            exact hfresh' other hother (hov.trans hvar.symm)
          · right
            exact ⟨amb, hamb', hvar, hok, hy⟩
    · rw [if_neg hpass]
      constructor
      · rintro (⟨hin, hothers⟩ | ⟨amb, hamb, hvar, hok, hy⟩)
        · left
          refine ⟨hin, ?_⟩
          intro amb hamb hok
          rcases List.mem_cons.mp hamb with rfl | hamb'
          · exact absurd hok hpass
          · exact hothers amb hamb' hok
        · right
          exact ⟨amb, List.mem_cons_of_mem _ hamb, hvar, hok, hy⟩
      · rintro (⟨hin, hothers⟩ | ⟨amb, hamb, hvar, hok, hy⟩)
        · left
          exact ⟨hin, fun amb hamb hok => hothers amb (List.mem_cons_of_mem _ hamb) hok⟩
        · rcases List.mem_cons.mp hamb with rfl | hamb'
          · exact absurd hok hpass
          · right
            exact ⟨amb, hamb', hvar, hok, hy⟩

/-- C11: the fix test holds if and only if both `|estimate − round(estimate)| <
tol` and `variance < varThresh` hold; after `AmbiguityConstr` on float
ambiguities of distinct variables, `ambFixedMap` holds `round(estimate)` for
exactly the variables whose ambiguity passed the test, whatever it held before;
an estimate of 4.95 with a variance not below the threshold is not fixed, and an
estimate of 5.001 with a variance below the threshold is fixed to 5 as soon as
the tolerance exceeds 0.001. -/
theorem fix_test_needs_both {Variable : Type} [DecidableEq Variable]
    (tol varThresh : Double) (ambs : List (FloatAmbiguity Variable))
    (state : FixingState Variable)
    (hdistinct : (ambs.map (fun amb => amb.var)).Nodup) :
    (∀ t vt x variance : ℚ,
      fixTest (Double.fin t) (Double.fin vt) (Double.fin x) (Double.fin variance) = true ↔
        |x - (nearestInteger x : ℚ)| < t ∧ variance < vt) ∧
    (∀ estimate variance : Double,
      fixTest tol varThresh estimate variance = true →
        Double.lt variance varThresh = true ∧ ∃ x : ℚ, estimate = Double.fin x ∧
          Double.lt (Double.fin |x - (nearestInteger x : ℚ)|) tol = true) ∧
    (∀ (v : Variable) (y : Double),
      (v, y) ∈ (AmbiguityConstr tol varThresh ambs state).ambFixedMap ↔
        ∃ amb ∈ ambs, amb.var = v ∧
          fixTest tol varThresh amb.estimate amb.variance = true ∧
          y = fixedValue amb.estimate) ∧
    (∀ variance : Double, Double.lt variance varThresh = false →
      fixTest tol varThresh (Double.fin (495 / 100)) variance = false) ∧
    (∀ variance : Double, Double.lt (Double.fin (1 / 1000)) tol = true →
      Double.lt variance varThresh = true →
      fixTest tol varThresh (Double.fin (5001 / 1000)) variance = true ∧
      fixedValue (Double.fin (5001 / 1000)) = Double.fin 5) := by
  refine ⟨?_, ?_, ?_, ?_, ?_⟩
  · intro t vt x variance
    simp only [fixTest, Double.lt, Double.le, Bool.and_eq_true, Bool.not_eq_true',
      decide_eq_true_eq, decide_eq_false_iff_not, not_le]
    constructor
    · rintro ⟨⟨_, h1⟩, _, h2⟩
      exact ⟨h1, h2⟩
    · rintro ⟨h1, h2⟩
      exact ⟨⟨le_of_lt h1, h1⟩, le_of_lt h2, h2⟩
  · intro estimate variance h
    cases estimate with
    | fin x =>
      simp only [fixTest, Bool.and_eq_true] at h
      exact ⟨h.2, x, rfl, h.1⟩
    | nan => simp [fixTest] at h
    | negInf => simp [fixTest] at h
    | posInf => simp [fixTest] at h
  · intro v y
    unfold AmbiguityConstr
    rw [fixAll_ambFixedMap tol varThresh ambs _ hdistinct]
    simp
  · intro variance hvar
    simp [fixTest, hvar]
  · intro variance htol hvar
    have hdist : |(5001 / 1000 : ℚ) - (nearestInteger (5001 / 1000) : ℚ)| = 1 / 1000 := by
      decide!
    refine ⟨?_, by decide!⟩
    simp only [fixTest, hdist, htol, hvar, Bool.and_self]

/-- C11, at the three sample ambiguities, whose variables are distinct. -/
theorem fix_test_needs_both_witness :
    (sampleAmbiguities.map (fun amb => amb.var)).Nodup ∧
    ((1, Double.fin 5) ∈ (AmbiguityConstr (Double.fin (1 / 100)) (Double.fin (1 / 100))
        sampleAmbiguities FixingState.new).ambFixedMap ↔
      ∃ amb ∈ sampleAmbiguities, amb.var = 1 ∧
        fixTest (Double.fin (1 / 100)) (Double.fin (1 / 100)) amb.estimate amb.variance = true ∧
        Double.fin 5 = fixedValue amb.estimate) :=
  ⟨by decide,
   (fix_test_needs_both (Double.fin (1 / 100)) (Double.fin (1 / 100)) sampleAmbiguities
      FixingState.new (by decide)).2.2.1 1 (Double.fin 5)⟩

/-! ## Theorems: time update -/

/-- The scalar product of two vectors of `n` entries is the sum of the products
of their entries. -/
theorem dot_eq_sum (n : Nat) (u v : DenseVector) (hu : u.length = n) (hv : v.length = n) :
    dot u v = ∑ i : Fin n, u.entry i * v.entry i := by
  induction n generalizing u v with
  | zero =>
    have hu' : u = [] := List.length_eq_zero.mp hu
    subst hu'
    simp [dot]
  | succ n ih =>
    cases u with
    | nil => simp at hu
    | cons a u' =>
      cases v with
      | nil => simp at hv
      | cons b v' =>
        have hu' : u'.length = n := by simpa using hu
        have hv' : v'.length = n := by simpa using hv
        have hrec := ih u' v' hu' hv'
        rw [Fin.sum_univ_succ]
        unfold dot at hrec ⊢
        simp only [List.zipWith_cons_cons, List.sum_cons, hrec]
        simp [DenseVector.entry]

/-- The rows of a matrix of a given size. -/
theorem isSize_iff (m : DenseMatrix) (rows cols : Nat) :
    m.isSize rows cols = true ↔ m.length = rows ∧ ∀ row ∈ m, row.length = cols := by
  simp [DenseMatrix.isSize]

/-- Row `i` of a matrix of `rows` by `cols` entries has `cols` entries. -/
theorem row_length (m : DenseMatrix) (rows cols : Nat) (hm : m.isSize rows cols = true)
    (i : Nat) (hi : i < rows) : (m.getD i []).length = cols := by
  obtain ⟨hlen, hrows⟩ := (isSize_iff m rows cols).mp hm
  have hi' : i < m.length := by omega
  rw [List.getD_eq_getElem _ _ hi']
  exact hrows _ (List.getElem_mem _)

/-- Row `i` of a matrix, for an index within it. -/
theorem getD_row (m : DenseMatrix) (i : Nat) (hi : i < m.length) : m.getD i [] = m[i] :=
  List.getD_eq_getElem _ _ hi

/-- An entry of the product of a matrix and a vector. -/
theorem mulVec_entry (m : DenseMatrix) (v : DenseVector) (n : Nat)
    (hm : m.isSize n n = true) (hv : v.length = n) (i : Fin n) :
    (m.mulVec v).entry i = ∑ k : Fin n, m.entry i k * v.entry k := by
  obtain ⟨hlen, _⟩ := (isSize_iff m n n).mp hm
  have hi : (i : Nat) < m.length := by omega
  have hrow := getD_row m i hi
  have hrowlen : (m[(i : Nat)]).length = n := by
    rw [← hrow]
    exact row_length m n n hm i i.2
  have himap : (i : Nat) < (m.map (fun row => dot row v)).length := by
    rw [List.length_map]
    exact hi
  unfold DenseMatrix.mulVec DenseVector.entry
  rw [List.getD_eq_getElem _ _ himap, List.getElem_map, dot_eq_sum n _ v hrowlen hv]
  apply Finset.sum_congr rfl
  intro k _
  unfold DenseMatrix.entry DenseVector.entry
  rw [hrow]

/-- The length and the entries of a column of a matrix. -/
theorem column_spec (m : DenseMatrix) (rows : Nat) (hlen : m.length = rows) (j : Nat) :
    (m.column j).length = rows ∧ ∀ k : Fin rows, (m.column j).entry k = m.entry k j := by
  constructor
  · unfold DenseMatrix.column
    rw [List.length_map, hlen]
  · intro k
    have hk : (k : Nat) < m.length := by omega
    have hkmap : (k : Nat) < (m.map (fun row => row.getD j 0)).length := by
      rw [List.length_map]
      exact hk
    unfold DenseMatrix.column DenseVector.entry DenseMatrix.entry
    rw [List.getD_eq_getElem _ _ hkmap, List.getElem_map, getD_row m k hk]

/-- The size and the entries of the product of two square matrices. -/
theorem mul_spec (a b : DenseMatrix) (n : Nat) (ha : a.isSize n n = true)
    (hb : b.isSize n n = true) :
    (a.mul b n).isSize n n = true ∧
      ∀ i j : Fin n, (a.mul b n).entry i j = ∑ k : Fin n, a.entry i k * b.entry k j := by
  obtain ⟨halen, _⟩ := (isSize_iff a n n).mp ha
  obtain ⟨hblen, _⟩ := (isSize_iff b n n).mp hb
  constructor
  · rw [isSize_iff]
    constructor
    · unfold DenseMatrix.mul
      rw [List.length_map, halen]
    · intro row hrow
      unfold DenseMatrix.mul at hrow
      obtain ⟨src, _, rfl⟩ := List.mem_map.mp hrow
      rw [List.length_map, List.length_range]
  · intro i j
    have hi : (i : Nat) < a.length := by omega
    have hrow := getD_row a i hi
    have hrowlen : (a[(i : Nat)]).length = n := by
      rw [← hrow]
      exact row_length a n n ha i i.2
    have himap : (i : Nat) < (a.mul b n).length := by
      unfold DenseMatrix.mul
      rw [List.length_map]
      exact hi
    have hj : (j : Nat) < ((List.range n).map (fun l => dot a[(i : Nat)] (b.column l))).length := by
      rw [List.length_map, List.length_range]
      exact j.2
    have hrowi : (a.mul b n).getD i [] =
        (List.range n).map (fun l => dot a[(i : Nat)] (b.column l)) := by
      rw [List.getD_eq_getElem _ _ himap]
      unfold DenseMatrix.mul
      rw [List.getElem_map]
    unfold DenseMatrix.entry
    rw [hrowi, List.getD_eq_getElem _ _ hj, List.getElem_map, List.getElem_range,
      dot_eq_sum n _ _ hrowlen (column_spec b n hblen j).1]
    apply Finset.sum_congr rfl
    intro k _
    rw [(column_spec b n hblen j).2 k]
    unfold DenseMatrix.entry DenseVector.entry
    rw [hrow]

/-- The size and the entries of the product of a square matrix and the transpose
of a square matrix. -/
theorem mulTranspose_spec (a b : DenseMatrix) (n : Nat) (ha : a.isSize n n = true)
    (hb : b.isSize n n = true) :
    (a.mulTranspose b).isSize n n = true ∧
      ∀ i j : Fin n, (a.mulTranspose b).entry i j = ∑ k : Fin n, a.entry i k * b.entry j k := by
  obtain ⟨halen, _⟩ := (isSize_iff a n n).mp ha
  obtain ⟨hblen, _⟩ := (isSize_iff b n n).mp hb
  constructor
  · rw [isSize_iff]
    constructor
    · unfold DenseMatrix.mulTranspose
      rw [List.length_map, halen]
    · intro row hrow
      unfold DenseMatrix.mulTranspose at hrow
      obtain ⟨src, _, rfl⟩ := List.mem_map.mp hrow
      rw [List.length_map, hblen]
  · intro i j
    have hi : (i : Nat) < a.length := by omega
    have hjb : (j : Nat) < b.length := by omega
    have hrow := getD_row a i hi
    have hrowb := getD_row b j hjb
    have hrowlen : (a[(i : Nat)]).length = n := by
      rw [← hrow]
      exact row_length a n n ha i i.2
    have hrowblen : (b[(j : Nat)]).length = n := by
      rw [← hrowb]
      exact row_length b n n hb j j.2
    have himap : (i : Nat) < (a.mulTranspose b).length := by
      unfold DenseMatrix.mulTranspose
      rw [List.length_map]
      exact hi
    have hj : (j : Nat) < (b.map (fun other => dot a[(i : Nat)] other)).length := by
      rw [List.length_map]
      exact hjb
    have hrowi : (a.mulTranspose b).getD i [] = b.map (fun other => dot a[(i : Nat)] other) := by
      rw [List.getD_eq_getElem _ _ himap]
      unfold DenseMatrix.mulTranspose
      rw [List.getElem_map]
    unfold DenseMatrix.entry
    rw [hrowi, List.getD_eq_getElem _ _ hj, List.getElem_map, dot_eq_sum n _ _ hrowlen hrowblen]
    apply Finset.sum_congr rfl
    intro k _
    unfold DenseVector.entry
    rw [hrow, hrowb]

/-- The size and the entries of the sum of two square matrices. -/
theorem add_spec (a b : DenseMatrix) (n : Nat) (ha : a.isSize n n = true)
    (hb : b.isSize n n = true) :
    (a.add b).isSize n n = true ∧
      ∀ i j : Fin n, (a.add b).entry i j = a.entry i j + b.entry i j := by
  obtain ⟨halen, harows⟩ := (isSize_iff a n n).mp ha
  obtain ⟨hblen, hbrows⟩ := (isSize_iff b n n).mp hb
  constructor
  · rw [isSize_iff]
    constructor
    · unfold DenseMatrix.add
      rw [List.length_zipWith, halen, hblen, Nat.min_self]
    · intro row hrow
      unfold DenseMatrix.add at hrow
      obtain ⟨i, hi, rfl⟩ := List.mem_iff_getElem.mp hrow
      have hia : i < a.length := by
        rw [List.length_zipWith] at hi
        omega
      have hib : i < b.length := by
        rw [List.length_zipWith] at hi
        omega
      rw [List.getElem_zipWith, List.length_zipWith, harows _ (List.getElem_mem hia),
        hbrows _ (List.getElem_mem hib), Nat.min_self]
  · intro i j
    have hia : (i : Nat) < a.length := by omega
    have hib : (i : Nat) < b.length := by omega
    have hrowa := getD_row a i hia
    have hrowb := getD_row b i hib
    have hja : (j : Nat) < (a[(i : Nat)]).length := by
      rw [harows _ (List.getElem_mem hia)]
      exact j.2
    have hjb : (j : Nat) < (b[(i : Nat)]).length := by
      rw [hbrows _ (List.getElem_mem hib)]
      exact j.2
    have hi : (i : Nat) < (a.add b).length := by
      unfold DenseMatrix.add
      rw [List.length_zipWith]
      omega
    have hrowi : (a.add b).getD i [] =
        List.zipWith (fun x y => x + y) a[(i : Nat)] b[(i : Nat)] := by
      rw [List.getD_eq_getElem _ _ hi]
      unfold DenseMatrix.add
      rw [List.getElem_zipWith]
    have hj : (j : Nat) <
        (List.zipWith (fun x y => x + y) a[(i : Nat)] b[(i : Nat)]).length := by
      rw [List.length_zipWith]
      omega
    unfold DenseMatrix.entry
    rw [hrowi, List.getD_eq_getElem _ _ hj, List.getElem_zipWith, hrowa, hrowb,
      List.getD_eq_getElem _ _ hja, List.getD_eq_getElem _ _ hjb]

/-- The length of the product of a matrix and a vector. -/
theorem mulVec_length (m : DenseMatrix) (v : DenseVector) : (m.mulVec v).length = m.length := by
  unfold DenseMatrix.mulVec
  rw [List.length_map]


/-- C13: when Φ and Q are square of the live-variable dimension, `TimeUpdate`
raises nothing, leaves `xhat` and `P` as they were, and sets the predicted state
to `Φ·x` and, `P` being of that dimension too, the predicted covariance to
`Φ·P·Φᵗ + Q`; when the dimension of Φ or of Q does not match, it fails with
`InvalidSolver` and leaves the state unchanged. -/
theorem TimeUpdate_predicts (state : FilterState) (phiMatrix processNoiseCovariance : DenseMatrix) :
    (phiMatrix.isSize state.xhat.length state.xhat.length = true →
      processNoiseCovariance.isSize state.xhat.length state.xhat.length = true →
      (TimeUpdate state phiMatrix processNoiseCovariance).raised = none ∧
      (TimeUpdate state phiMatrix processNoiseCovariance).state.xhat = state.xhat ∧
      (TimeUpdate state phiMatrix processNoiseCovariance).state.P = state.P ∧
      (TimeUpdate state phiMatrix processNoiseCovariance).state.xhatminus.length =
        state.xhat.length ∧
      (TimeUpdate state phiMatrix processNoiseCovariance).state.xhatminus.toFun
          state.xhat.length =
        Matrix.mulVec (phiMatrix.toMatrix state.xhat.length state.xhat.length)
          (state.xhat.toFun state.xhat.length) ∧
      (state.P.isSize state.xhat.length state.xhat.length = true →
        (TimeUpdate state phiMatrix processNoiseCovariance).state.Pminus.isSize
            state.xhat.length state.xhat.length = true ∧
        (TimeUpdate state phiMatrix processNoiseCovariance).state.Pminus.toMatrix
            state.xhat.length state.xhat.length =
          phiMatrix.toMatrix state.xhat.length state.xhat.length *
              state.P.toMatrix state.xhat.length state.xhat.length *
              (phiMatrix.toMatrix state.xhat.length state.xhat.length).transpose +
            processNoiseCovariance.toMatrix state.xhat.length state.xhat.length)) ∧
    ((phiMatrix.isSize state.xhat.length state.xhat.length &&
        processNoiseCovariance.isSize state.xhat.length state.xhat.length) = false →
      (TimeUpdate state phiMatrix processNoiseCovariance).raised =
        some SolverException.InvalidSolver ∧
      (TimeUpdate state phiMatrix processNoiseCovariance).state = state) := by
  constructor
  · intro hphi hQ
    have hcond : (phiMatrix.isSize state.xhat.length state.xhat.length &&
        processNoiseCovariance.isSize state.xhat.length state.xhat.length) = true := by
      rw [hphi, hQ]
      rfl
    have hphilen := ((isSize_iff phiMatrix _ _).mp hphi).1
    have hTU : TimeUpdate state phiMatrix processNoiseCovariance =
        { state :=
            { state with
              xhatminus := phiMatrix.mulVec state.xhat,
              Pminus := ((phiMatrix.mul state.P state.xhat.length).mulTranspose phiMatrix).add
                processNoiseCovariance },
          raised := none } := by
      unfold TimeUpdate
      exact if_pos hcond
    rw [hTU]
    refine ⟨rfl, rfl, rfl, ?_, ?_, ?_⟩
    · rw [mulVec_length, hphilen]
    · funext i
      show (phiMatrix.mulVec state.xhat).entry i = _
      rw [mulVec_entry phiMatrix state.xhat _ hphi rfl i]
      simp [Matrix.mulVec, Matrix.dotProduct, DenseMatrix.toMatrix, DenseVector.toFun]
    · intro hP
      have hmul := mul_spec phiMatrix state.P _ hphi hP
      have hmt := mulTranspose_spec (phiMatrix.mul state.P state.xhat.length) phiMatrix _
        hmul.1 hphi
      have hadd := add_spec _ processNoiseCovariance _ hmt.1 hQ
      refine ⟨hadd.1, ?_⟩
      ext i j
      show DenseMatrix.entry _ i j = _
      rw [hadd.2 i j, hmt.2 i j]
      simp only [Matrix.add_apply, Matrix.mul_apply, Matrix.transpose_apply,
        DenseMatrix.toMatrix, Matrix.of_apply]
      congr 1
      apply Finset.sum_congr rfl
      intro k _
      rw [hmul.2 i k]
  · intro hcond
    have hTU : TimeUpdate state phiMatrix processNoiseCovariance =
        { state := state, raised := some SolverException.InvalidSolver } := by
      unfold TimeUpdate
      exact if_neg (by rw [hcond]; exact Bool.false_ne_true)
    rw [hTU]
    exact ⟨rfl, rfl⟩

/-- C13, at the sample state of two live variables: a 2 by 2 pair Φ, Q is
accepted, a 2 by 3 matrix Φ is refused. -/
theorem TimeUpdate_predicts_witness :
    (DenseMatrix.isSize [[1, 1], [0, 1]] sampleFilterState.xhat.length
        sampleFilterState.xhat.length = true ∧
      DenseMatrix.isSize [[1 / 2, 0], [0, 1 / 2]] sampleFilterState.xhat.length
        sampleFilterState.xhat.length = true ∧
      (TimeUpdate sampleFilterState [[1, 1], [0, 1]] [[1 / 2, 0], [0, 1 / 2]]).raised = none) ∧
    ((DenseMatrix.isSize [[1, 1, 0], [0, 1, 0]] sampleFilterState.xhat.length
          sampleFilterState.xhat.length &&
        DenseMatrix.isSize [[1 / 2, 0], [0, 1 / 2]] sampleFilterState.xhat.length
          sampleFilterState.xhat.length) = false ∧
      (TimeUpdate sampleFilterState [[1, 1, 0], [0, 1, 0]] [[1 / 2, 0], [0, 1 / 2]]).raised =
        some SolverException.InvalidSolver) :=
  ⟨⟨by decide, by decide,
      ((TimeUpdate_predicts sampleFilterState [[1, 1], [0, 1]] [[1 / 2, 0], [0, 1 / 2]]).1
        (by decide) (by decide)).1⟩,
   ⟨by decide,
      ((TimeUpdate_predicts sampleFilterState [[1, 1, 0], [0, 1, 0]]
        [[1 / 2, 0], [0, 1 / 2]]).2 (by decide)).1⟩⟩

end gpstk
